import Mathlib

/-!
Shallow embedding of the werewolf game-engine core
(packages/backend/src/services: game.service.ts, voting.service.ts,
role.service.ts, game-engine.service.ts and the socket handler
game.handler.ts).  Database rows (Game, Player, Ability, GameAction,
GameEvent) are modelled as Lean structures; the Prisma store of a single
room is carried inside the `Game` structure (players, abilities, actions,
events and the shared `phase_timers` sorted set restricted to this room).
Async/await and transactions collapse to pure state passing; `throw`
becomes `Except.error`.
-/

/-- Prisma enum GamePhase. -/
inductive GamePhase where
  | LOBBY | ROLE_ASSIGNMENT | NIGHT_PHASE | DAY_DISCUSSION | DAY_VOTING | GAME_END
deriving DecidableEq, Repr

/-- Prisma enum GameState. -/
inductive GameState where
  | WAITING | STARTING | NIGHT | DAY | VOTING | ENDED | CANCELLED
deriving DecidableEq, Repr

/-- Prisma enum PlayerState. -/
inductive PlayerState where
  | ALIVE | DEAD | DISCONNECTED
deriving DecidableEq, Repr

/-- Prisma enum GameRole. -/
inductive GameRole where
  | WEREWOLF | BLACK_WOLF | WHITE_WOLF | WOLF_RIDING_HOOD
  | VILLAGER | SEER | TALKATIVE_SEER | WITCH | POISONER | GUARD | HUNTER
  | CUPID | HEIR | PLUNDERER | DICTATOR | LITTLE_GIRL
  | RED_RIDING_HOOD | BLUE_RIDING_HOOD | MERCENARY
deriving DecidableEq, Repr

/-- Prisma enum ActionType. -/
inductive ActionType where
  | WEREWOLF_VOTE | SEER_INVESTIGATE | WITCH_HEAL | WITCH_POISON
  | GUARD_PROTECT | HUNTER_SHOOT | DICTATOR_COUP | CUPID_LINK
  | HEIR_CHOOSE | WHITE_WOLF_DEVOUR | BLACK_WOLF_CONVERT | DAY_VOTE
deriving DecidableEq, Repr

/-- Prisma enum Team. -/
inductive Team where
  | VILLAGERS | WEREWOLVES | SOLO
deriving DecidableEq, Repr

/-- Player row (fields the engine core reads). -/
structure Player where
  id : String
  userId : String
  position : Nat
  role : GameRole
  state : PlayerState
  linkedTo : Option String
deriving DecidableEq, Repr

/-- Ability row; `metadataTargetId` models `metadata.targetId` (Cupid link,
Heir target, Mercenary target are stored there). -/
structure Ability where
  playerId : String
  abilityType : String
  usesLeft : Int
  maxUses : Int
  cooldownDays : Nat
  lastUsedDay : Option Nat
  metadataTargetId : Option String
deriving DecidableEq, Repr

/-- GameAction row.  `metadataLink` models the Cupid `{player1Id, player2Id}`
metadata; `id` models the database-generated primary key; `result` the
stored investigation result. -/
structure GameAction where
  id : Nat
  performerId : String
  actionType : ActionType
  targetId : Option String
  dayNumber : Nat
  phase : GamePhase
  createdAt : Nat
  metadataLink : Option (String × String)
  result : Option GameRole
deriving DecidableEq, Repr

/-- GameEvent row (append-only audit log), flattened to the fields the
engine writes for deaths. -/
structure GameEvent where
  eventType : String
  dayNumber : Nat
  playerId : Option String
  cause : Option String
deriving DecidableEq, Repr

/-- One entry of the Redis `phase_timers` sorted set.  The JSON payload of
an entry written by `schedulePhaseEnd` is `{gameId, phase, endTime}`; the
payload written by `castVote` on early termination is
`{gameId, trigger: "all_voted"}` and carries NO `phase` field, hence
`phase : Option GamePhase`.  `score` is the sorted-set score (deadline in
milliseconds). -/
structure TimerEntry where
  gameId : String
  phase : Option GamePhase
  trigger : Option String
  score : Nat
deriving DecidableEq, Repr

/-- Game row plus the room's owned rows and its slice of `phase_timers`. -/
structure Game where
  id : String
  hostId : String
  state : GameState
  phase : GamePhase
  dayNumber : Nat
  nightDuration : Nat
  dayDuration : Nat
  voteDuration : Nat
  phaseEndsAt : Option Nat
  winningTeam : Option Team
  players : List Player
  abilities : List Ability
  actions : List GameAction
  events : List GameEvent
  timers : List TimerEntry
deriving DecidableEq, Repr

/-! ## game.service.ts -/

/-- `GameService.mapActionToType` (game.service.ts): the wire action string
to ActionType map; the `_role` parameter is unused in the source. -/
def mapActionToType (action : String) : Option ActionType :=
  if action = "werewolf_vote" then some ActionType.WEREWOLF_VOTE
  else if action = "seer_investigate" then some ActionType.SEER_INVESTIGATE
  else if action = "witch_heal" then some ActionType.WITCH_HEAL
  else if action = "witch_poison" then some ActionType.WITCH_POISON
  else if action = "guard_protect" then some ActionType.GUARD_PROTECT
  else if action = "hunter_shoot" then some ActionType.HUNTER_SHOOT
  else if action = "dictator_coup" then some ActionType.DICTATOR_COUP
  else if action = "cupid_link" then some ActionType.CUPID_LINK
  else if action = "heir_choose" then some ActionType.HEIR_CHOOSE
  else if action = "white_wolf_devour" then some ActionType.WHITE_WOLF_DEVOUR
  else if action = "black_wolf_convert" then some ActionType.BLACK_WOLF_CONVERT
  else none

/-- `GameService.requiresAbilityUse` (game.service.ts). -/
def requiresAbilityUse (actionType : ActionType) : Bool :=
  [ActionType.WITCH_HEAL, ActionType.WITCH_POISON, ActionType.DICTATOR_COUP,
   ActionType.BLACK_WOLF_CONVERT, ActionType.WHITE_WOLF_DEVOUR].contains actionType

/-- `GameService.requiresTarget` (game.service.ts): hunter chooses target
when dying. -/
def requiresTarget (actionType : ActionType) : Bool :=
  actionType ≠ ActionType.HUNTER_SHOOT

/-- `prisma.ability.findUnique` on the `(playerId, abilityType)` unique key. -/
def findAbility (abilities : List Ability) (playerId abilityType : String) :
    Option Ability :=
  abilities.find? (fun a => a.playerId = playerId ∧ a.abilityType = abilityType)

/-- `prisma.gameAction.findFirst` for the guard's previous-night protection:
filter `(performerId, GUARD_PROTECT, dayNumber)` and take the row with the
greatest `createdAt` (orderBy createdAt desc). -/
def lastGuardProtection (actions : List GameAction) (performerId : String)
    (day : Nat) : Option GameAction :=
  (actions.filter (fun a =>
      a.performerId = performerId ∧ a.actionType = ActionType.GUARD_PROTECT ∧
      a.dayNumber = day)).foldl
    (fun acc a =>
      match acc with
      | none => some a
      | some b => if b.createdAt < a.createdAt then some a else acc)
    none

/-- `prisma.gameAction.upsert` on the unique key
`(gameId, performerId, actionType, dayNumber, phase)`: the update branch
keeps the row's id and rewrites `targetId`, `metadata` and `createdAt`;
the create branch appends a fresh row (its database-generated id is
modelled as the current list length). -/
def upsertGameAction (actions : List GameAction) (performerId : String)
    (actionType : ActionType) (dayNumber : Nat) (phase : GamePhase)
    (targetId : Option String) (metadataLink : Option (String × String))
    (now : Nat) : List GameAction :=
  if actions.any (fun a =>
      a.performerId = performerId ∧ a.actionType = actionType ∧
      a.dayNumber = dayNumber ∧ a.phase = phase) then
    actions.map (fun a =>
      if a.performerId = performerId ∧ a.actionType = actionType ∧
          a.dayNumber = dayNumber ∧ a.phase = phase then
        { a with targetId := targetId, metadataLink := metadataLink,
                 createdAt := now }
      else a)
  else
    actions ++ [{ id := actions.length, performerId := performerId,
                  actionType := actionType, targetId := targetId,
                  dayNumber := dayNumber, phase := phase, createdAt := now,
                  metadataLink := metadataLink, result := none }]

/-- `GameService.performNightAction` (game.service.ts).  Mirrors the
source's check order: phase, performer, action map, ability uses and
cooldown, target validity, guard-specific validations, then the upsert of
the GameAction and the ability decrement.  Errors are the source's thrown
messages (the cooldown message drops the interpolated day count). -/
def performNightAction (game : Game) (playerId : String) (action : String)
    (targetId : Option String) (metadataLink : Option (String × String))
    (now : Nat) : Except String Game :=
  if game.phase ≠ GamePhase.NIGHT_PHASE then
    Except.error "Invalid phase for night action"
  else
    match game.players.find? (fun p => p.id = playerId) with
    | none => Except.error "Invalid player"
    | some player =>
      if player.state ≠ PlayerState.ALIVE then Except.error "Invalid player"
      else
        match mapActionToType action with
        | none => Except.error "Invalid action for role"
        | some actionType =>
          let abilityCheck : Except String Unit :=
            if requiresAbilityUse actionType then
              match findAbility game.abilities playerId action with
              | none => Except.error "No uses left for this ability"
              | some ability =>
                if ability.usesLeft ≤ 0 then
                  Except.error "No uses left for this ability"
                else if ability.cooldownDays > 0 ∧ ability.lastUsedDay.isSome then
                  let daysSinceUse := game.dayNumber - ability.lastUsedDay.getD 0
                  if daysSinceUse < ability.cooldownDays then
                    Except.error "Ability on cooldown"
                  else Except.ok ()
                else Except.ok ()
            else Except.ok ()
          match abilityCheck with
          | Except.error e => Except.error e
          | Except.ok _ =>
            let targetCheck : Except String Unit :=
              match targetId with
              | none => Except.ok ()
              | some tid =>
                if requiresTarget actionType then
                  match game.players.find? (fun p => p.id = tid) with
                  | none => Except.error "Invalid target"
                  | some target =>
                    if target.state ≠ PlayerState.ALIVE then
                      Except.error "Invalid target"
                    else if actionType = ActionType.GUARD_PROTECT then
                      if tid = playerId then
                        Except.error "Cannot protect yourself"
                      else
                        match lastGuardProtection game.actions playerId
                            (game.dayNumber - 1) with
                        | some lastProtection =>
                          if lastProtection.targetId = some tid then
                            Except.error
                              "Cannot protect the same player twice in a row"
                          else Except.ok ()
                        | none => Except.ok ()
                    else Except.ok ()
                else Except.ok ()
            match targetCheck with
            | Except.error e => Except.error e
            | Except.ok _ =>
              let actions := upsertGameAction game.actions playerId actionType
                game.dayNumber game.phase targetId metadataLink now
              let abilities :=
                if requiresAbilityUse actionType then
                  game.abilities.map (fun a =>
                    if a.playerId = playerId ∧ a.abilityType = action then
                      { a with usesLeft := a.usesLeft - 1,
                               lastUsedDay := some game.dayNumber }
                    else a)
                else game.abilities
              Except.ok { game with actions := actions, abilities := abilities }

/-- The `hunter:revenge` wire handler (game.handler.ts): it forwards the
dead hunter's shot to `performNightAction` with the literal action string
"HUNTER_SHOOT". -/
def hunterRevengeWire (game : Game) (playerId targetId : String) (now : Nat) :
    Except String Game :=
  performNightAction game playerId "HUNTER_SHOOT" (some targetId) none now

/-! ## role.service.ts (src/unnamed/part_007) -/

/-- `GAME_CONFIG.roleAbilities` (game.config.ts) has entries only for these
five roles; `RoleService.initializeAbilities` returns early for every other
role. -/
def roleAbilitiesConfigured (role : GameRole) : Bool :=
  [GameRole.WITCH, GameRole.POISONER, GameRole.BLACK_WOLF,
   GameRole.WHITE_WOLF, GameRole.DICTATOR].contains role

/-- `RoleService.initializeAbilities` (part_007): the ability rows created
for a freshly assigned role.  Note the `abilityType` strings: "heal",
"poison", "convert", "devour", "coup", "protect", "investigate", "link",
"choose_heir" — and that the early `if (!abilities) return` guard means the
GUARD/SEER/CUPID/HEIR switch arms are unreachable because those roles have
no `roleAbilities` config entry. -/
def initializeAbilities (playerId : String) (role : GameRole) : List Ability :=
  if ¬ roleAbilitiesConfigured role then []
  else
    match role with
    | GameRole.WITCH =>
        [{ playerId := playerId, abilityType := "heal", usesLeft := 1,
           maxUses := 1, cooldownDays := 0, lastUsedDay := none,
           metadataTargetId := none },
         { playerId := playerId, abilityType := "poison", usesLeft := 1,
           maxUses := 1, cooldownDays := 0, lastUsedDay := none,
           metadataTargetId := none }]
    | GameRole.POISONER =>
        [{ playerId := playerId, abilityType := "poison", usesLeft := 2,
           maxUses := 2, cooldownDays := 0, lastUsedDay := none,
           metadataTargetId := none }]
    | GameRole.BLACK_WOLF =>
        [{ playerId := playerId, abilityType := "convert", usesLeft := 1,
           maxUses := 1, cooldownDays := 0, lastUsedDay := none,
           metadataTargetId := none }]
    | GameRole.WHITE_WOLF =>
        [{ playerId := playerId, abilityType := "devour", usesLeft := 1,
           maxUses := 1, cooldownDays := 2, lastUsedDay := none,
           metadataTargetId := none }]
    | GameRole.DICTATOR =>
        [{ playerId := playerId, abilityType := "coup", usesLeft := 1,
           maxUses := 1, cooldownDays := 0, lastUsedDay := none,
           metadataTargetId := none }]
    | GameRole.GUARD =>
        [{ playerId := playerId, abilityType := "protect", usesLeft := 1,
           maxUses := 1, cooldownDays := 0, lastUsedDay := none,
           metadataTargetId := none }]
    | GameRole.SEER =>
        [{ playerId := playerId, abilityType := "investigate", usesLeft := 1,
           maxUses := 1, cooldownDays := 0, lastUsedDay := none,
           metadataTargetId := none }]
    | GameRole.TALKATIVE_SEER =>
        [{ playerId := playerId, abilityType := "investigate", usesLeft := 1,
           maxUses := 1, cooldownDays := 0, lastUsedDay := none,
           metadataTargetId := none }]
    | GameRole.CUPID =>
        [{ playerId := playerId, abilityType := "link", usesLeft := 1,
           maxUses := 1, cooldownDays := 0, lastUsedDay := none,
           metadataTargetId := none }]
    | GameRole.HEIR =>
        [{ playerId := playerId, abilityType := "choose_heir", usesLeft := 1,
           maxUses := 1, cooldownDays := 0, lastUsedDay := none,
           metadataTargetId := none }]
    | _ => []

/-- `RoleService.getTeamForRole` (part_007). -/
def getTeamForRole (role : GameRole) : Team :=
  match role with
  | GameRole.WEREWOLF => Team.WEREWOLVES
  | GameRole.BLACK_WOLF => Team.WEREWOLVES
  | GameRole.WOLF_RIDING_HOOD => Team.WEREWOLVES
  | GameRole.WHITE_WOLF => Team.SOLO
  | GameRole.MERCENARY => Team.SOLO
  | _ => Team.VILLAGERS

/-! ## voting.service.ts -/

/-- `VotingService.getVotes`: DAY_VOTE actions of a given day in phase
DAY_VOTING. -/
def getVotes (game : Game) (dayNumber : Nat) : List GameAction :=
  game.actions.filter (fun a =>
    a.actionType = ActionType.DAY_VOTE ∧ a.dayNumber = dayNumber ∧
    a.phase = GamePhase.DAY_VOTING)

/-- `VotingService.countVotes`: the `Record<string, number>` tally is
modelled as a function with default 0 (`count[t] || 0`). -/
def countVotes (votes : List GameAction) : String → Nat :=
  votes.foldl
    (fun count v =>
      match v.targetId with
      | some t => fun x => if x = t then count x + 1 else count x
      | none => count)
    (fun _ => 0)

/-- The mayor lookup inside `VotingService.applyMayorVotes`:
`tx.gameAction.findFirst({where: {gameId, performerId, actionType: DAY_VOTE,
targetId: {not: null}}})`.  The filter has NO `dayNumber` and NO `phase`
condition; `findFirst` without `orderBy` returns the first matching row in
stored order. -/
def mayorFirstVote (actions : List GameAction) (performerId : String) :
    Option GameAction :=
  actions.find? (fun a =>
    a.performerId = performerId ∧ a.actionType = ActionType.DAY_VOTE ∧
    a.targetId ≠ none)

/-- The mayor query of `applyMayorVotes`: alive players owning a
`mayor_vote` ability with `usesLeft > 0`. -/
def mayorPlayers (game : Game) : List Player :=
  game.players.filter (fun p =>
    p.state = PlayerState.ALIVE ∧
    game.abilities.any (fun a =>
      a.playerId = p.id ∧ a.abilityType = "mayor_vote" ∧ a.usesLeft > 0))

/-- `VotingService.applyMayorVotes`: for each mayor, add one vote to the
target of the first DAY_VOTE row found by `mayorFirstVote`. -/
def applyMayorVotes (game : Game) (baseVotes : String → Nat) : String → Nat :=
  (mayorPlayers game).foldl
    (fun result mayor =>
      match mayorFirstVote game.actions mayor.id with
      | some mayorVote =>
        match mayorVote.targetId with
        | some t => fun x => if x = t then result x + 1 else result x
        | none => result
      | none => result)
    baseVotes

/-! ## game-engine.service.ts (src/unnamed/part_010) -/

/-- `prisma.player.update` setting a player's state. -/
def setPlayerState (game : Game) (playerId : String) (st : PlayerState) : Game :=
  { game with players := game.players.map (fun p =>
      if p.id = playerId then { p with state := st } else p) }

/-- `prisma.player.update` setting a player's role. -/
def setPlayerRole (game : Game) (playerId : String) (role : GameRole) : Game :=
  { game with players := game.players.map (fun p =>
      if p.id = playerId then { p with role := role } else p) }

/-- Number of ALIVE players of the room. -/
def countAlive (game : Game) : Nat :=
  (game.players.filter (fun p => p.state = PlayerState.ALIVE)).length

/-- The first half of `GameEngineService.killPlayer` (part_010 lines
763-806): no-op handled by the caller; mark the player DEAD and append the
`night_death` GameEvent. -/
def markDead (game : Game) (playerId cause : String) : Game :=
  let g : Game := setPlayerState game playerId PlayerState.DEAD
  { g with events := g.events ++
      [{ eventType := "night_death", dayNumber := g.dayNumber,
         playerId := some playerId, cause := some cause }] }

/-- `handleDeathTriggers`, Cupid trigger 1: if the dead player's
`linkedTo` partner exists and is ALIVE, kill them with cause "grief".
`recur` is the recursive `killPlayer` call. -/
def griefKill1 (recur : Game → String → String → Game) (game : Game)
    (deadLinkedTo : Option String) : Game :=
  match deadLinkedTo with
  | some loverId =>
    match game.players.find? (fun p => p.id = loverId) with
    | some lover =>
      if lover.state = PlayerState.ALIVE then recur game loverId "grief"
      else game
    | none => game
  | none => game

/-- `handleDeathTriggers`, Cupid trigger 2: `prisma.player.findFirst` of an
ALIVE player whose `linkedTo` is the dead player; kill them with "grief". -/
def griefKill2 (recur : Game → String → String → Game) (game : Game)
    (deadId : String) : Game :=
  match game.players.find? (fun p =>
      p.linkedTo = some deadId ∧ p.state = PlayerState.ALIVE) with
  | some linkedLover => recur game linkedLover.id "grief"
  | none => game

/-- `handleDeathTriggers`, Heir trigger: the owner of an `heir_target`
ability pointing at the dead player inherits the dead player's role with
freshly initialized abilities (createMany appends rows). -/
def inheritHeir (game : Game) (deadId : String) (deadRole : GameRole) : Game :=
  match game.abilities.find? (fun a =>
      a.abilityType = "heir_target" ∧ a.metadataTargetId = some deadId) with
  | some heirAbility =>
    match game.players.find? (fun p => p.id = heirAbility.playerId) with
    | some heir =>
      if heir.state = PlayerState.ALIVE then
        let g : Game := setPlayerRole game heirAbility.playerId deadRole
        { g with abilities := g.abilities ++
            initializeAbilities heirAbility.playerId deadRole }
      else game
    | none => game
  | none => game

/-- `handleDeathTriggers`, Plunderer trigger: on the room's first death
(count of DEAD players = 1) an ALIVE Plunderer inherits the dead player's
role with fresh abilities. -/
def inheritPlunderer (game : Game) (deadRole : GameRole) : Game :=
  if (game.players.filter (fun p => p.state = PlayerState.DEAD)).length = 1 then
    match game.players.find? (fun p =>
        p.role = GameRole.PLUNDERER ∧ p.state = PlayerState.ALIVE) with
    | some plunderer =>
      let g : Game := setPlayerRole game plunderer.id deadRole
      { g with abilities := g.abilities ++
          initializeAbilities plunderer.id deadRole }
    | none => game
  else game

/-- One level of `GameEngineService.killPlayer` with its
`handleDeathTriggers` inlined (part_010 lines 763-924), the recursive
calls abstracted as `recur`: no-op unless the player exists and is ALIVE;
mark DEAD and log the death; the Hunter trigger and the protection-loss
triggers only publish events; then the two Cupid grief kills, the Heir
inheritance and the Plunderer inheritance, in source order. -/
def killAux (recur : Game → String → String → Game) (game : Game)
    (playerId cause : String) : Game :=
  match game.players.find? (fun p => p.id = playerId) with
  | none => game
  | some player =>
    if player.state ≠ PlayerState.ALIVE then game
    else
      inheritPlunderer
        (inheritHeir
          (griefKill2 recur
            (griefKill1 recur (markDead game playerId cause) player.linkedTo)
            playerId)
          playerId player.role)
        player.role

/-- `GameEngineService.killPlayer`.  The source recursion (grief may call
`killPlayer` again) carries no fuel; the explicit `fuel` parameter is the
embedding's structural-recursion bound, and the C7 theorem shows that any
fuel ≥ the room's player count computes the same fixpoint the source
recursion reaches. -/
def killPlayer (fuel : Nat) (game : Game) (playerId : String) (cause : String) :
    Game :=
  match fuel with
  | 0 => game
  | fuel + 1 => killAux (killPlayer fuel) game playerId cause

/-- `GameEngineService.isPlayerProtected` (part_010): the passive
immunities of the three riding hoods. -/
def isPlayerProtected (game : Game) (playerId : String) (deathCause : String) :
    Bool :=
  match game.players.find? (fun p => p.id = playerId) with
  | none => false
  | some player =>
    if player.role = GameRole.RED_RIDING_HOOD ∧ deathCause = "werewolf_attack" then
      game.players.any (fun p =>
        p.role = GameRole.HUNTER ∧ p.state = PlayerState.ALIVE)
    else if player.role = GameRole.BLUE_RIDING_HOOD ∧ deathCause = "werewolf_attack" then
      game.players.any (fun p =>
        p.role = GameRole.VILLAGER ∧ p.state = PlayerState.ALIVE)
    else if player.role = GameRole.WOLF_RIDING_HOOD ∧ deathCause = "voted_out" then
      game.players.any (fun p =>
        p.role = GameRole.BLACK_WOLF ∧ p.state = PlayerState.ALIVE)
    else false

/-- The condition of the Cupid-lovers branch of
`GameEngineService.checkWinConditions`: exactly two alive players and both
of them have a non-null `linkedTo` (the source does NOT check that they
are linked to each other). -/
def loversRuleFires (game : Game) : Bool :=
  let alivePlayers := game.players.filter (fun p => p.state = PlayerState.ALIVE)
  (alivePlayers.filter (fun p => p.linkedTo ≠ none)).length = 2 ∧
    alivePlayers.length = 2

/-- `GameEngineService.checkWinConditions` (part_010 lines 1044-1101). -/
def checkWinConditions (game : Game) : Option Team :=
  let alivePlayers := game.players.filter (fun p => p.state = PlayerState.ALIVE)
  if alivePlayers.length = 0 then none
  else
    let lovers := alivePlayers.filter (fun p => p.linkedTo ≠ none)
    if lovers.length = 2 ∧ alivePlayers.length = 2 then some Team.VILLAGERS
    else
      let werewolves := alivePlayers.filter (fun p =>
        [GameRole.WEREWOLF, GameRole.BLACK_WOLF,
         GameRole.WOLF_RIDING_HOOD].contains p.role)
      let villagers := alivePlayers.filter (fun p =>
        getTeamForRole p.role = Team.VILLAGERS)
      let soloPlayers := alivePlayers.filter (fun p =>
        getTeamForRole p.role = Team.SOLO)
      if alivePlayers.length = 1 ∧
          (alivePlayers.head?.map Player.role) = some GameRole.WHITE_WOLF then
        some Team.SOLO
      else if villagers.length ≤ werewolves.length ∧ soloPlayers.length = 0 then
        some Team.WEREWOLVES
      else if werewolves.length = 0 ∧
          ¬ soloPlayers.any (fun p => p.role = GameRole.WHITE_WOLF) then
        some Team.VILLAGERS
      else none

/-! ### Night resolution (processNightActions / processAction) -/

/-- The resolver context threaded through `processAction`: the
`protectedPlayers` JS Set and the `deaths` JS Map (playerId -> cause),
the latter modelled as an insertion-ordered association list. -/
structure ResolveCtx where
  protectedPlayers : List String
  deaths : List (String × String)
deriving DecidableEq, Repr

/-- JS `Map.set`: overwrite in place when the key exists, else append. -/
def setDeath (deaths : List (String × String)) (playerId cause : String) :
    List (String × String) :=
  if deaths.any (fun kv => kv.1 = playerId) then
    deaths.map (fun kv => if kv.1 = playerId then (kv.1, cause) else kv)
  else deaths ++ [(playerId, cause)]

/-- JS `Map.delete`. -/
def deleteDeath (deaths : List (String × String)) (playerId : String) :
    List (String × String) :=
  deaths.filter (fun kv => ¬ kv.1 = playerId)

/-- The WEREWOLF_VOTE rows of the current night
(`prisma.gameAction.findMany({where: {gameId, actionType: WEREWOLF_VOTE,
dayNumber, phase: NIGHT_PHASE}})`). -/
def werewolfVoteActions (game : Game) : List GameAction :=
  game.actions.filter (fun a =>
    a.actionType = ActionType.WEREWOLF_VOTE ∧
    a.dayNumber = game.dayNumber ∧ a.phase = GamePhase.NIGHT_PHASE)

/-- JS `Map.set`-based vote counting: increment in place, first vote for a
target appends the entry (Map insertion order). -/
def bumpVote (m : List (String × Nat)) (t : String) : List (String × Nat) :=
  if m.any (fun kv => kv.1 = t) then
    m.map (fun kv => if kv.1 = t then (kv.1, kv.2 + 1) else kv)
  else m ++ [(t, 1)]

/-- The `voteCount` Map built by the WEREWOLF_VOTE branch of
`processAction`: null targets are skipped. -/
def tallyVotes (votes : List GameAction) : List (String × Nat) :=
  votes.foldl
    (fun m v => match v.targetId with
      | some t => bumpVote m t
      | none => m)
    []

/-- `maxVotes` after the selection loop: the greatest count (0 on empty). -/
def maxVoteCount (m : List (String × Nat)) : Nat :=
  m.foldl (fun acc kv => max acc kv.2) 0

/-- Generalized running maximum of the selection loop: the greatest count
seen so far starting from `c` (`maxVoteCount m = maxFrom 0 m`). -/
def maxFrom (c : Nat) (m : List (String × Nat)) : Nat :=
  m.foldl (fun acc kv => max acc kv.2) c

/-- The selection loop of the WEREWOLF_VOTE branch:
`let maxVotes = 0; let target = null; voteCount.forEach((votes, playerId)
=> { if (votes > maxVotes) { maxVotes = votes; target = playerId } })`.
The strict `>` keeps the FIRST entry (in Map insertion order) that attains
the running maximum. -/
def selectWerewolfTarget (m : List (String × Nat)) : Option String :=
  (m.foldl
    (fun acc kv => if acc.1 < kv.2 then (kv.2, some kv.1) else acc)
    ((0 : Nat), (none : Option String))).2

/-- Upsert of the `heir_target` ability row in the HEIR_CHOOSE branch. -/
def upsertHeirTarget (abilities : List Ability) (performerId : String)
    (targetId : String) : List Ability :=
  if abilities.any (fun a =>
      a.playerId = performerId ∧ a.abilityType = "heir_target") then
    abilities.map (fun a =>
      if a.playerId = performerId ∧ a.abilityType = "heir_target" then
        { a with metadataTargetId := some targetId }
      else a)
  else
    abilities ++ [{ playerId := performerId, abilityType := "heir_target",
                    usesLeft := 1, maxUses := 1, cooldownDays := 0,
                    lastUsedDay := none, metadataTargetId := some targetId }]

/-- `GameEngineService.processAction` (part_010 lines 475-708): one night
action applied to the game and the resolver context.  Event publications
carry no state; the DAY_VOTE / HUNTER_SHOOT / DICTATOR_COUP types have no
switch case and fall through unchanged. -/
def processAction (game : Game) (ctx : ResolveCtx) (action : GameAction) :
    Game × ResolveCtx :=
  match action.actionType with
  | ActionType.WEREWOLF_VOTE =>
    match selectWerewolfTarget (tallyVotes (werewolfVoteActions game)) with
    | some target =>
        (game, { ctx with deaths := setDeath ctx.deaths target "werewolf_attack" })
    | none => (game, ctx)
  | ActionType.GUARD_PROTECT =>
    match action.targetId with
    | some t => (game, { ctx with protectedPlayers := ctx.protectedPlayers ++ [t] })
    | none => (game, ctx)
  | ActionType.WITCH_HEAL =>
    match ctx.deaths.find? (fun kv => kv.2 = "werewolf_attack") with
    | some werewolfTarget =>
      if action.targetId = some werewolfTarget.1 then
        (game, { ctx with protectedPlayers := ctx.protectedPlayers ++ [werewolfTarget.1] })
      else (game, ctx)
    | none => (game, ctx)
  | ActionType.WITCH_POISON =>
    match action.targetId with
    | some t => (game, { ctx with deaths := setDeath ctx.deaths t "witch_poison" })
    | none => (game, ctx)
  | ActionType.SEER_INVESTIGATE =>
    match action.targetId with
    | some tid =>
      match game.players.find? (fun p => p.id = tid) with
      | some target =>
        ({ game with actions := game.actions.map (fun a =>
             if a.id = action.id then { a with result := some target.role }
             else a) }, ctx)
      | none => (game, ctx)
    | none => (game, ctx)
  | ActionType.WHITE_WOLF_DEVOUR =>
    match action.targetId with
    | some t => (game, { ctx with deaths := setDeath ctx.deaths t "white_wolf_devour" })
    | none => (game, ctx)
  | ActionType.BLACK_WOLF_CONVERT =>
    match action.targetId with
    | some t =>
      if ctx.deaths.any (fun kv => kv.1 = t ∧ kv.2 = "werewolf_attack") then
        (setPlayerRole game t GameRole.WEREWOLF,
         { ctx with deaths := deleteDeath ctx.deaths t })
      else (game, ctx)
    | none => (game, ctx)
  | ActionType.CUPID_LINK =>
    match action.metadataLink with
    | some link =>
      let g : Game := { game with players := game.players.map (fun p =>
        if p.id = link.1 then { p with linkedTo := some link.2 } else p) }
      ({ g with players := g.players.map (fun p =>
        if p.id = link.2 then { p with linkedTo := some link.1 } else p) }, ctx)
    | none => (game, ctx)
  | ActionType.HEIR_CHOOSE =>
    match action.targetId with
    | some t =>
      ({ game with abilities := upsertHeirTarget game.abilities action.performerId t },
       ctx)
    | none => (game, ctx)
  | _ => (game, ctx)

/-- Stable insertion into a createdAt-ascending list (ties keep original
order), used to model `orderBy: { createdAt: "asc" }`. -/
def insertByCreatedAt (a : GameAction) : List GameAction → List GameAction
  | [] => [a]
  | b :: rest =>
    if b.createdAt < a.createdAt then b :: insertByCreatedAt a rest
    else a :: b :: rest

/-- `orderBy: { createdAt: "asc" }` on the fetched night actions. -/
def sortByCreatedAt (l : List GameAction) : List GameAction :=
  l.foldr insertByCreatedAt []

/-- `priority.indexOf(actionType)` for the resolution order of
`prioritizeActions` (-1 for types not in the priority list, which the JS
subtraction comparator sorts first). -/
def priorityIndex (t : ActionType) : Int :=
  match t with
  | ActionType.GUARD_PROTECT => 0
  | ActionType.CUPID_LINK => 1
  | ActionType.HEIR_CHOOSE => 2
  | ActionType.WEREWOLF_VOTE => 3
  | ActionType.WHITE_WOLF_DEVOUR => 4
  | ActionType.BLACK_WOLF_CONVERT => 5
  | ActionType.WITCH_HEAL => 6
  | ActionType.WITCH_POISON => 7
  | ActionType.SEER_INVESTIGATE => 8
  | _ => -1

/-- `GameEngineService.prioritizeActions`: the stable JS
`sort((a, b) => aPriority - bPriority)`, realized as concatenation of the
priority classes in ascending index order. -/
def prioritizeActions (actions : List GameAction) : List GameAction :=
  ([-1, 0, 1, 2, 3, 4, 5, 6, 7, 8] : List Int).flatMap
    (fun i => actions.filter (fun a => priorityIndex a.actionType = i))

/-- `GameEngineService.processNightActions` (part_010 lines 421-473):
fetch the night's actions ordered by createdAt, process them in priority
order, then commit every pending death that is neither in the protected
set nor passively immune.  `killPlayer` runs with fuel = player count,
which the C7 development shows is enough for the death cascade. -/
def processNightActions (game : Game) : Game :=
  let nightActions := sortByCreatedAt (game.actions.filter (fun a =>
    a.phase = GamePhase.NIGHT_PHASE ∧ a.dayNumber = game.dayNumber))
  let prioritized := prioritizeActions nightActions
  let step := prioritized.foldl
    (fun (gc : Game × ResolveCtx) a => processAction gc.1 gc.2 a)
    (game, { protectedPlayers := [], deaths := [] })
  step.2.deaths.foldl
    (fun g kv =>
      if ¬ step.2.protectedPlayers.contains kv.1 ∧
          ¬ isPlayerProtected g kv.1 kv.2 then
        killPlayer g.players.length g kv.1 kv.2
      else g)
    step.1

/-! ### Phase machine -/

/-- `GameEngineService.getPhaseDuration` (seconds; 0 for untimed). -/
def getPhaseDuration (game : Game) (phase : GamePhase) : Nat :=
  match phase with
  | GamePhase.ROLE_ASSIGNMENT => 5
  | GamePhase.NIGHT_PHASE => game.nightDuration
  | GamePhase.DAY_DISCUSSION => game.dayDuration
  | GamePhase.DAY_VOTING => game.voteDuration
  | _ => 0

/-- `GameEngineService.getStateForPhase`. -/
def getStateForPhase (phase : GamePhase) : GameState :=
  match phase with
  | GamePhase.LOBBY => GameState.WAITING
  | GamePhase.ROLE_ASSIGNMENT => GameState.STARTING
  | GamePhase.NIGHT_PHASE => GameState.NIGHT
  | GamePhase.DAY_DISCUSSION => GameState.DAY
  | GamePhase.DAY_VOTING => GameState.VOTING
  | GamePhase.GAME_END => GameState.ENDED

/-- `GameEngineService.getNextPhase`. -/
def getNextPhase (currentPhase : GamePhase) : GamePhase :=
  match currentPhase with
  | GamePhase.ROLE_ASSIGNMENT => GamePhase.NIGHT_PHASE
  | GamePhase.NIGHT_PHASE => GamePhase.DAY_DISCUSSION
  | GamePhase.DAY_DISCUSSION => GamePhase.DAY_VOTING
  | GamePhase.DAY_VOTING => GamePhase.NIGHT_PHASE
  | _ => GamePhase.GAME_END

/-- `GameEngineService.clearPhaseTimer`: remove every `phase_timers` entry
of this room. -/
def clearPhaseTimer (game : Game) : Game :=
  { game with timers := game.timers.filter (fun t => ¬ t.gameId = game.id) }

/-- `GameEngineService.schedulePhaseEnd`: zadd of
`{gameId, phase, endTime}` at score `now + duration * 1000`. -/
def schedulePhaseEnd (game : Game) (phase : GamePhase) (duration now : Nat) :
    Game :=
  { game with timers := game.timers ++
      [{ gameId := game.id, phase := some phase, trigger := none,
         score := now + duration * 1000 }] }

/-- `GameEngineService.startNightPhase` (part_010 lines 194-288, with
`handleNightPhaseMechanics` inlined): purge this night's actions; the
Little Girl is caught with probability 0.1 — the random draw is the
`littleGirlCaught` parameter; everything else publishes events only. -/
def startNightPhase (game : Game) (littleGirlCaught : Bool) : Game :=
  let game := { game with actions := game.actions.filter (fun a =>
    ¬ (a.phase = GamePhase.NIGHT_PHASE ∧ a.dayNumber = game.dayNumber)) }
  match game.players.find? (fun p =>
      p.role = GameRole.LITTLE_GIRL ∧ p.state = PlayerState.ALIVE) with
  | some littleGirl =>
    if littleGirlCaught then
      killPlayer game.players.length game littleGirl.id "caught_spying"
    else game
  | none => game

/-- `GameEngineService.startVotingPhase`: purge this day's DAY_VOTE rows
(the deleteMany filter has no phase condition); the mercenary check and
the announcement publish only. -/
def startVotingPhase (game : Game) : Game :=
  { game with actions := game.actions.filter (fun a =>
    ¬ (a.actionType = ActionType.DAY_VOTE ∧ a.dayNumber = game.dayNumber)) }

/-- `GameEngineService.executePhaseTransition`: phase-start hooks.
ROLE_ASSIGNMENT only arms a timeout and DAY_DISCUSSION only publishes. -/
def executePhaseTransition (game : Game) (phase : GamePhase)
    (littleGirlCaught : Bool) : Game :=
  match phase with
  | GamePhase.NIGHT_PHASE => startNightPhase game littleGirlCaught
  | GamePhase.DAY_VOTING => startVotingPhase game
  | _ => game

/-- `GameEngineService.processPhaseEnd`: the NIGHT_PHASE end hook runs the
night resolver; the DAY_VOTING case is an empty switch branch. -/
def processPhaseEnd (game : Game) (currentPhase : GamePhase) : Game :=
  match currentPhase with
  | GamePhase.NIGHT_PHASE => processNightActions game
  | _ => game

/-- `GameEngineService.endGame` (stats updates and the final publish do
not touch the room row beyond this update). -/
def endGame (game : Game) (winningTeam : Team) : Game :=
  clearPhaseTimer { game with state := GameState.ENDED,
                              phase := GamePhase.GAME_END,
                              winningTeam := some winningTeam }

/-- `GameEngineService.transitionToPhase` (part_010 lines 90-153). -/
def transitionToPhase (game : Game) (nextPhase : GamePhase) (now : Nat)
    (littleGirlCaught : Bool) : Game :=
  let game := clearPhaseTimer game
  let game := processPhaseEnd game game.phase
  match checkWinConditions game with
  | some winner => endGame game winner
  | none =>
    let duration := getPhaseDuration game nextPhase
    let phaseEndsAt := if duration ≠ 0 then some (now + duration * 1000) else none
    let game := { game with
      phase := nextPhase,
      state := getStateForPhase nextPhase,
      phaseEndsAt := phaseEndsAt,
      dayNumber := if nextPhase = GamePhase.NIGHT_PHASE then game.dayNumber + 1
                   else game.dayNumber }
    let game := executePhaseTransition game nextPhase littleGirlCaught
    if duration ≠ 0 ∧ nextPhase ≠ GamePhase.GAME_END then
      schedulePhaseEnd game nextPhase duration now
    else game

/-- The body of the `GameEngineService.processExpiredTimers` loop for one
popped entry whose score is due: parse `{gameId, phase}` out of the JSON
payload (an entry written by `castVote` has no `phase` field, so the
parsed `phase` is undefined = `none`), look the game up, compare
`game.phase === phase`, and only on a match invoke
`transitionToPhase(getNextPhase(phase))`; in every case zrem the entry.
The returned flag records whether the transition was invoked. -/
def dispatchTimerEntry (game : Game) (entry : TimerEntry) (now : Nat)
    (littleGirlCaught : Bool) : Game × Bool :=
  let popped :=
    match entry.phase with
    | some p =>
      if entry.gameId = game.id ∧ game.phase = p then
        (transitionToPhase game (getNextPhase p) now littleGirlCaught, true)
      else (game, false)
    | none => (game, false)
  ({ popped.1 with timers := popped.1.timers.filter (fun t => ¬ t = entry) },
   popped.2)

/-- `VotingService.castVote` (voting.service.ts lines 24-107): validate,
upsert the DAY_VOTE row, and when the count of DAY_VOTE rows of this
`(dayNumber, DAY_VOTING)` equals the count of living players, zadd the
immediate-expiry entry `{gameId, trigger: "all_voted"}` at score `now`.
It never calls `transitionToPhase`. -/
def castVote (game : Game) (voterId : String) (targetId : Option String)
    (now : Nat) : Except String Game :=
  if game.phase ≠ GamePhase.DAY_VOTING then Except.error "Invalid voting phase"
  else
    match game.players.find? (fun p => p.id = voterId) with
    | none => Except.error "Invalid voter"
    | some voter =>
      if voter.state ≠ PlayerState.ALIVE then Except.error "Invalid voter"
      else
        let targetCheck : Except String Unit :=
          match targetId with
          | none => Except.ok ()
          | some tid =>
            match game.players.find? (fun p => p.id = tid) with
            | none => Except.error "Invalid target"
            | some target =>
              if target.state ≠ PlayerState.ALIVE then
                Except.error "Invalid target"
              else Except.ok ()
        match targetCheck with
        | Except.error e => Except.error e
        | Except.ok _ =>
          let g1 : Game := { game with actions := (upsertGameAction
            game.actions voterId ActionType.DAY_VOTE game.dayNumber
            GamePhase.DAY_VOTING targetId none now) }
          let livingPlayers := g1.players.filter (fun p =>
            p.state = PlayerState.ALIVE)
          let voteCount := (g1.actions.filter (fun a =>
            a.actionType = ActionType.DAY_VOTE ∧
            a.dayNumber = g1.dayNumber ∧
            a.phase = GamePhase.DAY_VOTING)).length
          if voteCount = livingPlayers.length then
            Except.ok { g1 with timers := g1.timers ++
              [{ gameId := g1.id, phase := none, trigger := some "all_voted",
                 score := now }] }
          else Except.ok g1

/-- `GameService.cancelGame` (game.service.ts lines 520-530). -/
def cancelGame (game : Game) : Game :=
  { game with state := GameState.CANCELLED }

/-- `GameService.leaveGame` (game.service.ts lines 127-172).  In a WAITING
room the player row is deleted; when the host leaves,
`remainingPlayers[0]` of the include-ordered (stored-order) player list
becomes the host, and an empty remainder cancels the room.  In a started
game the player is marked DISCONNECTED. -/
def leaveGame (game : Game) (userId : String) : Except String Game :=
  match game.players.find? (fun p => p.userId = userId) with
  | none => Except.error "Player not in game"
  | some player =>
    if game.state = GameState.WAITING then
      let deleted := { game with players := game.players.filter (fun p =>
        ¬ p.id = player.id) }
      if game.hostId = userId then
        match game.players.filter (fun p => ¬ p.userId = userId) with
        | remaining :: _ => Except.ok { deleted with hostId := remaining.userId }
        | [] => Except.ok (cancelGame deleted)
      else Except.ok deleted
    else
      Except.ok { game with players := game.players.map (fun p =>
        if p.id = player.id then { p with state := PlayerState.DISCONNECTED }
        else p) }

/-! ## Concrete room fixtures for the claim theorems -/

/-- A fresh room shell shared by the fixtures below. -/
def baseGame : Game :=
  { id := "room1", hostId := "host", state := GameState.NIGHT,
    phase := GamePhase.NIGHT_PHASE, dayNumber := 1, nightDuration := 90,
    dayDuration := 180, voteDuration := 60, phaseEndsAt := none,
    winningTeam := none, players := [], abilities := [], actions := [],
    events := [], timers := [] }

/-- C1 fixture: day-2 DAY_VOTING room where the lynched hunter "h" is DEAD
and "v" is an alive target. -/
def gameC1 : Game :=
  { baseGame with
    state := GameState.VOTING, phase := GamePhase.DAY_VOTING,
    dayNumber := 2,
    players := [⟨"h", "uh", 1, GameRole.HUNTER, PlayerState.DEAD, none⟩,
                ⟨"v", "uv", 2, GameRole.VILLAGER, PlayerState.ALIVE, none⟩] }

/-- C2 fixture: DAY_VOTING room with two alive players where "b" has
already voted; the next vote by "a" makes the count full. -/
def gameC2 : Game :=
  { baseGame with
    state := GameState.VOTING, phase := GamePhase.DAY_VOTING,
    players := [⟨"a", "ua", 1, GameRole.VILLAGER, PlayerState.ALIVE, none⟩,
                ⟨"b", "ub", 2, GameRole.WEREWOLF, PlayerState.ALIVE, none⟩],
    actions := [⟨0, "b", ActionType.DAY_VOTE, some "a", 1,
                 GamePhase.DAY_VOTING, 0, none, none⟩] }

/-- C3 fixture players: a witch and a villager, both alive. -/
def playersC3 : List Player :=
  [⟨"w", "uw", 1, GameRole.WITCH, PlayerState.ALIVE, none⟩,
   ⟨"v", "uv", 2, GameRole.VILLAGER, PlayerState.ALIVE, none⟩]

/-- C3 fixture: first-night room whose ability rows are exactly the ones
`initializeAbilities` creates at role assignment. -/
def gameC3 : Game :=
  { baseGame with
    players := playersC3,
    abilities := playersC3.flatMap (fun p => initializeAbilities p.id p.role) }

/-- C4 fixture: night room with a 1-1 werewolf vote tie; the vote for "b"
(position 2) is stored before the vote for "a" (position 1). -/
def gameC4 : Game :=
  { baseGame with
    players := [⟨"a", "ua", 1, GameRole.VILLAGER, PlayerState.ALIVE, none⟩,
                ⟨"b", "ub", 2, GameRole.VILLAGER, PlayerState.ALIVE, none⟩,
                ⟨"w1", "uw1", 3, GameRole.WEREWOLF, PlayerState.ALIVE, none⟩,
                ⟨"w2", "uw2", 4, GameRole.WEREWOLF, PlayerState.ALIVE, none⟩],
    actions := [⟨0, "w1", ActionType.WEREWOLF_VOTE, some "b", 1,
                 GamePhase.NIGHT_PHASE, 0, none, none⟩,
                ⟨1, "w2", ActionType.WEREWOLF_VOTE, some "a", 1,
                 GamePhase.NIGHT_PHASE, 1, none, none⟩] }

/-- C5 fixture, first alive player: linked to the DEAD player "c". -/
def pA_C5 : Player := ⟨"a", "ua", 1, GameRole.VILLAGER, PlayerState.ALIVE, some "c"⟩

/-- C5 fixture, second alive player: linked to the DEAD player "d". -/
def pB_C5 : Player := ⟨"b", "ub", 2, GameRole.SEER, PlayerState.ALIVE, some "d"⟩

/-- C5 fixture: exactly two alive players, each linked to a different dead
partner — not to each other. -/
def gameC5 : Game :=
  { baseGame with
    players := [pA_C5, pB_C5,
                ⟨"c", "uc", 3, GameRole.VILLAGER, PlayerState.DEAD, some "a"⟩,
                ⟨"d", "ud", 4, GameRole.VILLAGER, PlayerState.DEAD, some "b"⟩] }

/-- C6 fixture: day-2 voting room; the mayor "m" voted for "x" on day 1
and for "y" on day 2, and the day-1 row is stored first. -/
def gameC6 : Game :=
  { baseGame with
    state := GameState.VOTING, phase := GamePhase.DAY_VOTING,
    dayNumber := 2,
    players := [⟨"m", "um", 1, GameRole.DICTATOR, PlayerState.ALIVE, none⟩,
                ⟨"x", "ux", 2, GameRole.VILLAGER, PlayerState.ALIVE, none⟩,
                ⟨"y", "uy", 3, GameRole.VILLAGER, PlayerState.ALIVE, none⟩],
    abilities := [⟨"m", "mayor_vote", 999, 999, 0, none, none⟩],
    actions := [⟨0, "m", ActionType.DAY_VOTE, some "x", 1,
                 GamePhase.DAY_VOTING, 10, none, none⟩,
                ⟨1, "m", ActionType.DAY_VOTE, some "y", 2,
                 GamePhase.DAY_VOTING, 20, none, none⟩] }

/-- C7 fixture: a mutually linked lover pair, a werewolf, and an already
dead player (4 players, 3 alive). -/
def gameC7 : Game :=
  { baseGame with
    players := [⟨"p1", "u1", 1, GameRole.VILLAGER, PlayerState.ALIVE, some "p2"⟩,
                ⟨"p2", "u2", 2, GameRole.VILLAGER, PlayerState.ALIVE, some "p1"⟩,
                ⟨"p3", "u3", 3, GameRole.WEREWOLF, PlayerState.ALIVE, none⟩,
                ⟨"p4", "u4", 4, GameRole.VILLAGER, PlayerState.DEAD, none⟩] }

/-- C8 fixture: DAY_VOTING room (3 villagers, 1 werewolf, nobody wins yet)
about to transition into the night. -/
def gameC8 : Game :=
  { baseGame with
    state := GameState.VOTING, phase := GamePhase.DAY_VOTING,
    players := [⟨"q1", "v1", 1, GameRole.VILLAGER, PlayerState.ALIVE, none⟩,
                ⟨"q2", "v2", 2, GameRole.VILLAGER, PlayerState.ALIVE, none⟩,
                ⟨"q3", "v3", 3, GameRole.VILLAGER, PlayerState.ALIVE, none⟩,
                ⟨"q4", "v4", 4, GameRole.WEREWOLF, PlayerState.ALIVE, none⟩] }

/-- C9 fixture: night 2 with an alive guard "g" who protected "x" on
night 1. -/
def gameC9 : Game :=
  { baseGame with
    dayNumber := 2,
    players := [⟨"g", "ug", 1, GameRole.GUARD, PlayerState.ALIVE, none⟩,
                ⟨"x", "ux", 2, GameRole.VILLAGER, PlayerState.ALIVE, none⟩,
                ⟨"z", "uz", 3, GameRole.WEREWOLF, PlayerState.ALIVE, none⟩],
    actions := [⟨0, "g", ActionType.GUARD_PROTECT, some "x", 1,
                 GamePhase.NIGHT_PHASE, 0, none, none⟩] }

/-- C10 fixture: WAITING lobby whose stored player order is not sorted by
position ("uc" joined before "ud", but "ud" holds the reused lower
position 2); the host is "ua". -/
def gameC10 : Game :=
  { baseGame with
    state := GameState.WAITING, phase := GamePhase.LOBBY,
    hostId := "ua",
    players := [⟨"pa", "ua", 1, GameRole.VILLAGER, PlayerState.ALIVE, none⟩,
                ⟨"pc", "uc", 3, GameRole.VILLAGER, PlayerState.ALIVE, none⟩,
                ⟨"pd", "ud", 2, GameRole.VILLAGER, PlayerState.ALIVE, none⟩] }

/-! ## Theorems -/

/-- Every ability row `initializeAbilities` can create carries one of the
nine short ability keys — never a wire action name. -/
theorem initializeAbilities_abilityType_mem (pid : String) (role : GameRole)
    (a : Ability) (h : a ∈ initializeAbilities pid role) :
    a.abilityType ∈ ["heal", "poison", "convert", "devour", "coup", "protect",
      "investigate", "link", "choose_heir"] := by
  cases role <;> simp [initializeAbilities, roleAbilitiesConfigured] at h <;>
    rcases h with rfl | rfl <;> simp

/-- C3: during NIGHT_PHASE, an alive player's submission of one of the
five use-limited wire actions always fails with "No uses left for this
ability" whenever the ability table is the one `initializeAbilities`
produced, because the lookup key is the wire action name while the rows
are stored under the short ability keys. -/
theorem performNightAction_ability_key_mismatch
    (game : Game) (playerId action : String) (targetId : Option String)
    (meta : Option (String × String)) (now : Nat) (player : Player)
    (hphase : game.phase = GamePhase.NIGHT_PHASE)
    (hfind : game.players.find? (fun q => q.id = playerId) = some player)
    (halive : player.state = PlayerState.ALIVE)
    (hact : action ∈ ["witch_heal", "witch_poison", "black_wolf_convert",
      "white_wolf_devour", "dictator_coup"])
    (hinit : game.abilities =
      game.players.flatMap (fun p => initializeAbilities p.id p.role)) :
    performNightAction game playerId action targetId meta now =
      Except.error "No uses left for this ability" := by
  have hnone : findAbility game.abilities playerId action = none := by
    rw [findAbility, List.find?_eq_none]
    intro a ha
    rw [hinit] at ha
    obtain ⟨p, _, hpa⟩ := List.mem_flatMap.mp ha
    have htype := initializeAbilities_abilityType_mem p.id p.role a hpa
    simp only [decide_eq_true_eq, not_and]
    intro _ h2
    simp only [List.mem_cons, List.mem_singleton, List.not_mem_nil,
      or_false] at hact htype
    rcases hact with rfl | rfl | rfl | rfl | rfl <;>
      rcases htype with h9 | h9 | h9 | h9 | h9 | h9 | h9 | h9 | h9 <;>
      rw [h9] at h2 <;> exact absurd h2 (by decide)
  simp only [List.mem_cons, List.mem_singleton, List.not_mem_nil,
    or_false] at hact
  rcases hact with rfl | rfl | rfl | rfl | rfl <;>
    simp [performNightAction, hphase, hfind, halive, hnone,
      mapActionToType, requiresAbilityUse]

/-- C3 witness: the witch of `gameC3` owns a "heal" row with a use left,
yet her `witch_heal` submission is rejected. -/
theorem performNightAction_ability_key_mismatch_witness :
    (findAbility gameC3.abilities "w" "heal").map Ability.usesLeft = some 1 ∧
    performNightAction gameC3 "w" "witch_heal" (some "v") none 0 =
      Except.error "No uses left for this ability" :=
  ⟨by decide,
   performNightAction_ability_key_mismatch gameC3 "w" "witch_heal" (some "v")
     none 0 ⟨"w", "uw", 1, GameRole.WITCH, PlayerState.ALIVE, none⟩
     rfl (by decide) rfl (by decide) rfl⟩

/-- C9: an alive guard's `guard_protect` submission is rejected with no
recorded action when the target is the guard, and likewise when the
target equals the target of the guard's GUARD_PROTECT action of the
previous dayNumber. -/
theorem performNightAction_guard_rejections
    (game : Game) (playerId tid : String) (meta : Option (String × String))
    (now : Nat) (player target : Player)
    (hphase : game.phase = GamePhase.NIGHT_PHASE)
    (hfind : game.players.find? (fun q => q.id = playerId) = some player)
    (halive : player.state = PlayerState.ALIVE)
    (htfind : game.players.find? (fun q => q.id = tid) = some target)
    (htalive : target.state = PlayerState.ALIVE) :
    (tid = playerId →
      performNightAction game playerId "guard_protect" (some tid) meta now =
        Except.error "Cannot protect yourself") ∧
    (tid ≠ playerId →
      ∀ la, lastGuardProtection game.actions playerId (game.dayNumber - 1) =
          some la →
        la.targetId = some tid →
        performNightAction game playerId "guard_protect" (some tid) meta now =
          Except.error "Cannot protect the same player twice in a row") := by
  constructor
  · intro heq
    simp [performNightAction, hphase, hfind, halive, htfind, htalive,
      mapActionToType, requiresAbilityUse, requiresTarget, heq]
  · intro hne la hla hlat
    simp [performNightAction, hphase, hfind, halive, htfind, htalive,
      mapActionToType, requiresAbilityUse, requiresTarget, hne, hla, hlat]

/-- C9 witness: in `gameC9` the guard's self-protection and the repeat of
night 1's protection of "x" are both rejected. -/
theorem performNightAction_guard_rejections_witness :
    performNightAction gameC9 "g" "guard_protect" (some "g") none 9 =
      Except.error "Cannot protect yourself" ∧
    performNightAction gameC9 "g" "guard_protect" (some "x") none 9 =
      Except.error "Cannot protect the same player twice in a row" := by
  constructor
  · exact (performNightAction_guard_rejections gameC9 "g" "g" none 9
      ⟨"g", "ug", 1, GameRole.GUARD, PlayerState.ALIVE, none⟩
      ⟨"g", "ug", 1, GameRole.GUARD, PlayerState.ALIVE, none⟩
      rfl (by decide) rfl (by decide) rfl).1 rfl
  · exact (performNightAction_guard_rejections gameC9 "g" "x" none 9
      ⟨"g", "ug", 1, GameRole.GUARD, PlayerState.ALIVE, none⟩
      ⟨"x", "ux", 2, GameRole.VILLAGER, PlayerState.ALIVE, none⟩
      rfl (by decide) rfl (by decide) rfl).2 (by decide)
      ⟨0, "g", ActionType.GUARD_PROTECT, some "x", 1, GamePhase.NIGHT_PHASE,
        0, none, none⟩ (by decide) rfl

/-- C1: the `hunter:revenge` wire event reaches `performNightAction` with
the literal action "HUNTER_SHOOT"; in `gameC1` (the lynched dead hunter
shooting an alive target) it throws, and in fact it throws on EVERY input,
so no target is ever killed with cause hunter_revenge through this path
("HUNTER_SHOOT" is not a key of `mapActionToType`, and a dead hunter fails
the ALIVE check anyway). -/
theorem hunterRevengeWire_always_errors :
    hunterRevengeWire gameC1 "h" "v" 0 =
      Except.error "Invalid phase for night action" ∧
    ∀ (g : Game) (p t : String) (n : Nat),
      ∃ msg, hunterRevengeWire g p t n = Except.error msg := by
  refine ⟨by rfl, ?_⟩
  intro g p t n
  unfold hunterRevengeWire performNightAction
  split
  · exact ⟨_, rfl⟩
  · split
    · exact ⟨_, rfl⟩
    · split
      · exact ⟨_, rfl⟩
      · exact ⟨_, rfl⟩

/-- C2: in `gameC2` the final vote makes the DAY_VOTE count equal the
alive count; `castVote` schedules the immediate-expiry entry
`{gameId, trigger: "all_voted"}` (score = now) and performs no transition
itself — but the entry carries no `phase` field, so the dispatcher of
`processExpiredTimers` drops it without invoking any transition: the room
stays in DAY_VOTING. -/
theorem castVote_all_voted_timer_dropped :
    ∃ g2, castVote gameC2 "a" (some "b") 5 = Except.ok g2 ∧
      g2.phase = GamePhase.DAY_VOTING ∧ g2.state = GameState.VOTING ∧
      g2.timers = [{ gameId := "room1", phase := none,
                     trigger := some "all_voted", score := 5 }] ∧
      ∀ e ∈ g2.timers,
        dispatchTimerEntry g2 e 5 false = ({ g2 with timers := [] }, false) := by
  refine ⟨_, rfl, ?_⟩
  decide

/-- C10 counterexample: when host "ua" leaves `gameC10`, the new host is
"uc" — the first remaining player in stored order — whose position (3) is
NOT the lowest among the remaining players ("ud" holds position 2). -/
theorem leaveGame_host_not_lowest_position :
    ∃ g2, leaveGame gameC10 "ua" = Except.ok g2 ∧
      g2.hostId = "uc" ∧
      (g2.players.find? (fun p => p.userId = "uc")).map Player.position =
        some 3 ∧
      (g2.players.find? (fun p => p.userId = "ud")).map Player.position =
        some 2 := by
  refine ⟨_, rfl, ?_⟩
  decide

/-- C10 amended: if the host leaves a WAITING room, the FIRST remaining
player of the stored player list (not the lowest-position one) becomes the
host, and with no remaining player the room is CANCELLED. -/
theorem leaveGame_host_succession (game : Game) (userId : String)
    (player : Player)
    (hfind : game.players.find? (fun p => p.userId = userId) = some player)
    (hwait : game.state = GameState.WAITING)
    (hhost : game.hostId = userId) :
    (∀ firstRemaining rest,
      game.players.filter (fun p => ¬ p.userId = userId) =
        firstRemaining :: rest →
      leaveGame game userId = Except.ok
        { game with
          players := game.players.filter (fun p => ¬ p.id = player.id),
          hostId := firstRemaining.userId }) ∧
    (game.players.filter (fun p => ¬ p.userId = userId) = [] →
      ∃ g2, leaveGame game userId = Except.ok g2 ∧
        g2.state = GameState.CANCELLED) := by
  constructor
  · intro firstRemaining rest hrem
    simp only [decide_not] at hrem
    simp [leaveGame, hfind, hwait, hhost, hrem]
  · intro hrem
    simp only [decide_not] at hrem
    refine ⟨cancelGame { game with players := game.players.filter (fun p =>
      ¬ p.id = player.id) }, ?_, rfl⟩
    simp [leaveGame, hfind, hwait, hhost, hrem]

/-- C10 witness: host succession in `gameC10` applied concretely. -/
theorem leaveGame_host_succession_witness :
    leaveGame gameC10 "ua" = Except.ok
      { gameC10 with
        players := gameC10.players.filter (fun p => ¬ p.id = "pa"),
        hostId := "uc" } :=
  (leaveGame_host_succession gameC10 "ua"
    ⟨"pa", "ua", 1, GameRole.VILLAGER, PlayerState.ALIVE, none⟩
    (by decide) rfl rfl).1
    ⟨"pc", "uc", 3, GameRole.VILLAGER, PlayerState.ALIVE, none⟩
    [⟨"pd", "ud", 2, GameRole.VILLAGER, PlayerState.ALIVE, none⟩]
    (by decide)

/-- C5 counterexample: in `gameC5` exactly "a" and "b" are alive and each
is linked to a dead partner, not to the other — yet the lovers branch
fires and `checkWinConditions` returns VILLAGERS. -/
theorem loversRule_fires_without_mutual_link :
    loversRuleFires gameC5 = true ∧
    checkWinConditions gameC5 = some Team.VILLAGERS ∧
    (gameC5.players.filter (fun p => p.state = PlayerState.ALIVE)).map
      Player.id = ["a", "b"] ∧
    pA_C5.linkedTo = some "c" ∧ pB_C5.linkedTo = some "d" ∧
    ¬ pA_C5.linkedTo = some pB_C5.id ∧ ¬ pB_C5.linkedTo = some pA_C5.id := by
  decide

/-- C5 amended: with exactly two alive players, the lovers branch of
`checkWinConditions` fires iff BOTH have a non-null `linkedTo` (mutual
linkage is not checked), and when it fires the result is VILLAGERS. -/
theorem loversRule_iff_two_alive_linked (game : Game) (p q : Player)
    (h : game.players.filter (fun x => x.state = PlayerState.ALIVE) = [p, q]) :
    (loversRuleFires game = true ↔ p.linkedTo ≠ none ∧ q.linkedTo ≠ none) ∧
    (loversRuleFires game = true → checkWinConditions game = some Team.VILLAGERS) := by
  have key : loversRuleFires game = true ↔
      p.linkedTo ≠ none ∧ q.linkedTo ≠ none := by
    rw [loversRuleFires]
    simp only [h]
    cases hp : p.linkedTo <;> cases hq : q.linkedTo <;>
      simp [List.filter, hp, hq]
  refine ⟨key, fun hl => ?_⟩
  rw [loversRuleFires] at hl
  simp only [decide_eq_true_eq, decide_not] at hl
  have hcond : ((game.players.filter (fun x =>
      x.state = PlayerState.ALIVE)).filter (fun x =>
      !decide (x.linkedTo = none))).length = 2 := by
    simpa using hl.1
  rw [checkWinConditions]
  simp only [h] at hcond ⊢
  simp [hcond]

/-- C5 witness: the amended characterization applied to `gameC5`. -/
theorem loversRule_iff_two_alive_linked_witness :
    (loversRuleFires gameC5 = true ↔
      pA_C5.linkedTo ≠ none ∧ pB_C5.linkedTo ≠ none) ∧
    (loversRuleFires gameC5 = true →
      checkWinConditions gameC5 = some Team.VILLAGERS) :=
  loversRule_iff_two_alive_linked gameC5 pA_C5 pB_C5 (by decide)

/-- C6 counterexample: in `gameC6` (day 2) the mayor's extra vote lands on
"x", the target of their DAY-1 vote (the first matching row in stored
order), while the day-2 target "y" receives no extra vote; the claim
predicts tally x = 0 and y = 2, the code yields x = 1 and y = 1. -/
theorem applyMayorVotes_uses_prior_day_vote :
    (mayorFirstVote gameC6.actions "m").map GameAction.dayNumber = some 1 ∧
    countVotes (getVotes gameC6 gameC6.dayNumber) "x" = 0 ∧
    countVotes (getVotes gameC6 gameC6.dayNumber) "y" = 1 ∧
    applyMayorVotes gameC6 (countVotes (getVotes gameC6 gameC6.dayNumber)) "x"
      = 1 ∧
    applyMayorVotes gameC6 (countVotes (getVotes gameC6 gameC6.dayNumber)) "y"
      = 1 := by
  decide

/-- C6 amended: `applyMayorVotes` adds, for every alive mayor, exactly one
vote to the target of the FIRST stored DAY_VOTE row of that mayor with a
non-null target — with no dayNumber or phase restriction. -/
theorem applyMayorVotes_first_found_vote (game : Game) (base : String → Nat)
    (t : String) :
    applyMayorVotes game base t = base t +
      ((mayorPlayers game).filter (fun m =>
        (mayorFirstVote game.actions m.id).bind GameAction.targetId =
          some t)).length := by
  rw [applyMayorVotes]
  induction mayorPlayers game generalizing base with
  | nil => simp
  | cons m rest ih =>
    simp only [List.foldl_cons, List.filter_cons]
    cases hv : mayorFirstVote game.actions m.id with
    | none => simp [ih]
    | some v =>
      cases hvt : v.targetId with
      | none => simp [ih, hvt]
      | some tv =>
        by_cases htv : tv = t
        · subst htv
          simp [ih, hvt, Nat.add_comm, Nat.add_assoc, Nat.add_left_comm]
        · simp [ih, hvt, htv, Ne.symm htv]

/-- `List.find?` respects pointwise-equal predicates. -/
theorem find?_congr_local {α : Type} (l : List α) (p q : α → Bool)
    (h : ∀ x ∈ l, p x = q x) : l.find? p = l.find? q := by
  induction l with
  | nil => rfl
  | cons a l ih =>
    simp only [List.find?]
    rw [h a (List.mem_cons_self a l)]
    cases q a with
    | true => rfl
    | false => exact ih (fun x hx => h x (List.mem_cons_of_mem a hx))

/-- The start value bounds the running maximum. -/
theorem le_maxFrom (c : Nat) (m : List (String × Nat)) : c ≤ maxFrom c m := by
  induction m generalizing c with
  | nil => exact Nat.le_refl c
  | cons kv m ih =>
    exact Nat.le_trans (Nat.le_max_left c kv.2) (ih (max c kv.2))

/-- Every entry's count is bounded by the running maximum. -/
theorem mem_le_maxFrom (x : String × Nat) (m : List (String × Nat)) :
    ∀ c : Nat, x ∈ m → x.2 ≤ maxFrom c m := by
  induction m with
  | nil => intro c hx; cases hx
  | cons kv m ih =>
    intro c hx
    rcases List.mem_cons.mp hx with rfl | hx2
    · exact Nat.le_trans (Nat.le_max_right c x.2) (le_maxFrom (max c x.2) m)
    · exact ih (max c kv.2) hx2

/-- The running maximum is the start value or is attained by an entry. -/
theorem maxFrom_attained (c : Nat) (m : List (String × Nat)) :
    maxFrom c m = c ∨ ∃ x ∈ m, maxFrom c m = x.2 := by
  induction m generalizing c with
  | nil => exact Or.inl rfl
  | cons kv m ih =>
    have hstep : maxFrom c (kv :: m) = maxFrom (max c kv.2) m := rfl
    rcases ih (max c kv.2) with heq | ⟨x, hx, heq⟩
    · rcases max_choice c kv.2 with hm | hm
      · exact Or.inl (by rw [hstep, heq, hm])
      · exact Or.inr ⟨kv, List.mem_cons_self kv m, by rw [hstep, heq, hm]⟩
    · exact Or.inr ⟨x, List.mem_cons_of_mem kv hx, by rw [hstep, heq]⟩

/-- The selection loop from an arbitrary accumulator picks the first entry
that attains the overall maximum and strictly beats the start value. -/
theorem select_go (m : List (String × Nat)) (c : Nat) (t0 : Option String) :
    (m.foldl (fun acc kv => if acc.1 < kv.2 then (kv.2, some kv.1) else acc)
      (c, t0)).2 =
    (match m.find? (fun kv =>
        decide (maxFrom c m ≤ kv.2) && decide (c < kv.2)) with
     | some kv => some kv.1
     | none => t0) := by
  induction m generalizing c t0 with
  | nil => rfl
  | cons kv m ih =>
    have hcons : maxFrom c (kv :: m) = maxFrom (max c kv.2) m := rfl
    by_cases h : c < kv.2
    · have hmax : maxFrom c (kv :: m) = maxFrom kv.2 m := by
        rw [hcons, Nat.max_eq_right (Nat.le_of_lt h)]
      have hstep : (kv :: m).foldl
          (fun acc x => if acc.1 < x.2 then (x.2, some x.1) else acc) (c, t0) =
          m.foldl (fun acc x => if acc.1 < x.2 then (x.2, some x.1) else acc)
            (kv.2, some kv.1) := by
        rw [List.foldl_cons]
        congr 1
        simp [h]
      by_cases h2 : maxFrom kv.2 m ≤ kv.2
      · have hnone : m.find? (fun x => decide (maxFrom kv.2 m ≤ x.2) &&
            decide (kv.2 < x.2)) = none := by
          rw [List.find?_eq_none]
          intro x hx
          simp only [Bool.and_eq_true, decide_eq_true_eq, not_and]
          intro _
          exact Nat.not_lt.mpr (Nat.le_trans (mem_le_maxFrom x m kv.2 hx) h2)
        have hhead : (decide (maxFrom c (kv :: m) ≤ kv.2) &&
            decide (c < kv.2)) = true := by
          rw [hmax]
          simp [h2, h]
        rw [hstep, ih, hnone, @List.find?_cons_of_pos _ (fun x =>
          decide (maxFrom c (kv :: m) ≤ x.2) && decide (c < x.2)) kv m hhead]
      · have hlt : kv.2 < maxFrom kv.2 m := lt_of_not_le h2
        have hfind : m.find? (fun x => decide (maxFrom kv.2 m ≤ x.2) &&
              decide (kv.2 < x.2)) =
            m.find? (fun x => decide (maxFrom kv.2 m ≤ x.2) &&
              decide (c < x.2)) := by
          apply find?_congr_local
          intro x hx
          by_cases hz : maxFrom kv.2 m ≤ x.2
          · have hx1 : kv.2 < x.2 := Nat.lt_of_lt_of_le hlt hz
            have hx2 : c < x.2 := Nat.lt_trans h hx1
            simp [hz, hx1, hx2]
          · simp [hz]
        have hsome : ∃ y, m.find? (fun x => decide (maxFrom kv.2 m ≤ x.2) &&
            decide (kv.2 < x.2)) = some y := by
          rcases maxFrom_attained kv.2 m with heq | ⟨x, hx, heq⟩
          · exact absurd heq (Nat.ne_of_gt hlt)
          · cases hy : m.find? (fun x => decide (maxFrom kv.2 m ≤ x.2) &&
                decide (kv.2 < x.2)) with
            | some y => exact ⟨y, rfl⟩
            | none =>
              exfalso
              have hnone2 := List.find?_eq_none.mp hy x hx
              simp only [Bool.and_eq_true, decide_eq_true_eq, not_and] at hnone2
              exact hnone2 (Nat.le_of_eq heq) (heq ▸ hlt)
        obtain ⟨y, hy⟩ := hsome
        have hheadneg : ¬ (decide (maxFrom c (kv :: m) ≤ kv.2) &&
            decide (c < kv.2)) = true := by
          rw [hmax]
          simp [h2]
        rw [hstep, ih, hy, @List.find?_cons_of_neg _ (fun x =>
          decide (maxFrom c (kv :: m) ≤ x.2) && decide (c < x.2)) kv m hheadneg,
          hmax, ← hfind, hy]
    · have hmax : maxFrom c (kv :: m) = maxFrom c m := by
        rw [hcons, Nat.max_eq_left (Nat.le_of_not_lt h)]
      have hstep : (kv :: m).foldl
          (fun acc x => if acc.1 < x.2 then (x.2, some x.1) else acc) (c, t0) =
          m.foldl (fun acc x => if acc.1 < x.2 then (x.2, some x.1) else acc)
            (c, t0) := by
        rw [List.foldl_cons]
        congr 1
        simp [h]
      have hheadneg : ¬ (decide (maxFrom c (kv :: m) ≤ kv.2) &&
          decide (c < kv.2)) = true := by
        simp [h]
      rw [hstep, ih, @List.find?_cons_of_neg _ (fun x =>
        decide (maxFrom c (kv :: m) ≤ x.2) && decide (c < x.2)) kv m hheadneg,
        hmax]

/-- Consing a non-matching entry commutes with `setDeath`. -/
theorem setDeath_cons_ne (kv : String × String) (d : List (String × String))
    (pid c : String) (hk : ¬ kv.1 = pid) :
    setDeath (kv :: d) pid c = kv :: setDeath d pid c := by
  rw [setDeath, setDeath]
  cases hany : d.any (fun x => decide (x.1 = pid)) with
  | true => simp [List.any_cons, hany, hk]
  | false => simp [List.any_cons, hany, hk]

/-- After `setDeath`, the key maps to the new cause. -/
theorem find?_setDeath (d : List (String × String)) (pid c : String) :
    (setDeath d pid c).find? (fun kv => kv.1 = pid) = some (pid, c) := by
  induction d with
  | nil => simp [setDeath]
  | cons kv d ih =>
    by_cases hk : kv.1 = pid
    · rw [setDeath]
      have hany : (kv :: d).any (fun x => decide (x.1 = pid)) = true := by
        simp [List.any_cons, hk]
      rw [if_pos (by simp [hany])]
      simp only [List.map_cons, if_pos hk]
      rw [@List.find?_cons_of_pos _ (fun kv => decide (kv.1 = pid)) (kv.1, c)
        (d.map (fun x => if x.1 = pid then (x.1, c) else x)) (by simp [hk]),
        hk]
    · rw [setDeath_cons_ne kv d pid c hk]
      rw [@List.find?_cons_of_neg _ (fun kv => decide (kv.1 = pid)) kv
        (setDeath d pid c) (by simp [hk])]
      exact ih

/-- The werewolf selection loop equals "first entry of the tally (Map
insertion order) attaining the maximum count", provided that maximum is
positive. -/
theorem selectWerewolfTarget_first_max (m : List (String × Nat)) :
    selectWerewolfTarget m =
      (m.find? (fun kv => decide (maxVoteCount m ≤ kv.2) &&
        decide (0 < kv.2))).map Prod.fst := by
  rw [selectWerewolfTarget, select_go m 0 none]
  have hm : maxFrom 0 m = maxVoteCount m := rfl
  rw [hm]
  cases m.find? (fun kv => decide (maxVoteCount m ≤ kv.2) &&
      decide (0 < kv.2)) with
  | some kv => rfl
  | none => rfl

/-- C4 counterexample: in `gameC4` the werewolf votes tie 1-1 between "b"
(position 2, voted first) and "a" (position 1); the pack choice is "b",
not the lowest-position tied player "a". -/
theorem werewolfVote_tie_not_lowest_position :
    tallyVotes (werewolfVoteActions gameC4) = [("b", 1), ("a", 1)] ∧
    selectWerewolfTarget (tallyVotes (werewolfVoteActions gameC4)) =
      some "b" ∧
    (gameC4.players.find? (fun p => p.id = "a")).map Player.position =
      some 1 ∧
    (gameC4.players.find? (fun p => p.id = "b")).map Player.position =
      some 2 := by
  decide

/-- C4 amended: the pack target is the first entry of the werewolf-vote
tally (Map insertion order: order of first vote per target) that attains
the maximum count — so a unique maximum is the most-voted player, but
ties go to the earliest-first-voted target, not the lowest position — and
processing a WEREWOLF_VOTE action records the pending death
`(target, werewolf_attack)`. -/
theorem werewolfVote_select_first_max (game : Game) (ctx : ResolveCtx)
    (a : GameAction) (h : a.actionType = ActionType.WEREWOLF_VOTE) :
    (selectWerewolfTarget (tallyVotes (werewolfVoteActions game)) =
      ((tallyVotes (werewolfVoteActions game)).find? (fun kv =>
        decide (maxVoteCount (tallyVotes (werewolfVoteActions game)) ≤ kv.2) &&
        decide (0 < kv.2))).map Prod.fst) ∧
    (∀ t, selectWerewolfTarget (tallyVotes (werewolfVoteActions game)) =
        some t →
      (processAction game ctx a).2.deaths.find? (fun kv => kv.1 = t) =
        some (t, "werewolf_attack")) := by
  refine ⟨selectWerewolfTarget_first_max _, fun t hsel => ?_⟩
  simp only [processAction, h, hsel]
  exact find?_setDeath ctx.deaths t "werewolf_attack"

/-- C4 witness: the amended selection applied in `gameC4`. -/
theorem werewolfVote_select_first_max_witness :
    (processAction gameC4 { protectedPlayers := [], deaths := [] }
      ⟨0, "w1", ActionType.WEREWOLF_VOTE, some "b", 1, GamePhase.NIGHT_PHASE,
        0, none, none⟩).2.deaths.find? (fun kv => kv.1 = "b") =
      some ("b", "werewolf_attack") :=
  (werewolfVote_select_first_max gameC4
    { protectedPlayers := [], deaths := [] }
    ⟨0, "w1", ActionType.WEREWOLF_VOTE, some "b", 1, GamePhase.NIGHT_PHASE,
      0, none, none⟩ rfl).2 "b" (by decide)

/-- A state-preserving rewrite of the player list keeps the alive count. -/
theorem length_filter_alive_map (l : List Player) (f : Player → Player)
    (hf : ∀ p, (f p).state = p.state) :
    ((l.map f).filter (fun p => p.state = PlayerState.ALIVE)).length =
      (l.filter (fun p => p.state = PlayerState.ALIVE)).length := by
  induction l with
  | nil => rfl
  | cons q l ih =>
    simp only [List.map_cons, List.filter_cons, hf q]
    by_cases hq : q.state = PlayerState.ALIVE <;> simp [hq, ih]

/-- Marking a player DEAD cannot increase the alive count. -/
theorem length_filter_alive_markDead_le (l : List Player) (pid : String) :
    ((l.map (fun p => if p.id = pid then { p with state := PlayerState.DEAD }
        else p)).filter (fun p => p.state = PlayerState.ALIVE)).length ≤
      (l.filter (fun p => p.state = PlayerState.ALIVE)).length := by
  induction l with
  | nil => exact Nat.le_refl 0
  | cons q l ih =>
    simp only [List.map_cons, List.filter_cons]
    by_cases hq : q.id = pid
    · by_cases ha : q.state = PlayerState.ALIVE <;>
        simp [hq, ha, Nat.le_succ_of_le ih, ih]
    · by_cases ha : q.state = PlayerState.ALIVE <;> simp [hq, ha, ih]

/-- Marking an alive listed player DEAD strictly decreases the alive
count. -/
theorem length_filter_alive_markDead_lt (l : List Player) (pid : String)
    (p : Player) (hp : p ∈ l) (hid : p.id = pid)
    (halive : p.state = PlayerState.ALIVE) :
    ((l.map (fun q => if q.id = pid then { q with state := PlayerState.DEAD }
        else q)).filter (fun q => q.state = PlayerState.ALIVE)).length <
      (l.filter (fun q => q.state = PlayerState.ALIVE)).length := by
  induction l with
  | nil => cases hp
  | cons q l ih =>
    rcases List.mem_cons.mp hp with rfl | hp2
    · simp only [List.map_cons, List.filter_cons, hid, if_pos, halive]
      simp
      exact Nat.lt_succ_of_le (length_filter_alive_markDead_le l pid)
    · simp only [List.map_cons, List.filter_cons]
      by_cases hq : q.id = pid
      · by_cases ha : q.state = PlayerState.ALIVE
        · simp only [hq, ha, if_pos]
          simp
          exact Nat.lt_succ_of_le (length_filter_alive_markDead_le l pid)
        · simp [hq, ha, ih hp2]
      · by_cases ha : q.state = PlayerState.ALIVE <;> simp [hq, ha, ih hp2]

/-- `countAlive` only reads the player list, so a role rewrite keeps it. -/
theorem countAlive_setPlayerRole (g : Game) (pid : String) (r : GameRole) :
    countAlive (setPlayerRole g pid r) = countAlive g := by
  rw [countAlive, countAlive, setPlayerRole]
  apply length_filter_alive_map
  intro p
  by_cases hp : p.id = pid <;> simp [hp]

/-- `markDead` cannot increase the alive count. -/
theorem countAlive_markDead_le (g : Game) (pid cause : String) :
    countAlive (markDead g pid cause) ≤ countAlive g := by
  rw [countAlive, countAlive, markDead, setPlayerState]
  exact length_filter_alive_markDead_le g.players pid

/-- `markDead` on a found alive player strictly decreases the alive
count. -/
theorem countAlive_markDead_lt (g : Game) (pid cause : String) (p : Player)
    (hfind : g.players.find? (fun q => q.id = pid) = some p)
    (halive : p.state = PlayerState.ALIVE) :
    countAlive (markDead g pid cause) < countAlive g := by
  rw [countAlive, countAlive, markDead, setPlayerState]
  have hmem := List.mem_of_find?_eq_some hfind
  have hid : p.id = pid := by
    have := List.find?_some hfind
    simpa using this
  exact length_filter_alive_markDead_lt g.players pid p hmem hid halive

/-- `inheritHeir` keeps the alive count (it only rewrites a role and adds
ability rows). -/
theorem countAlive_inheritHeir (g : Game) (deadId : String)
    (deadRole : GameRole) :
    countAlive (inheritHeir g deadId deadRole) = countAlive g := by
  rw [inheritHeir]
  split
  · split
    · split
      · exact countAlive_setPlayerRole g _ deadRole
      · rfl
    · rfl
  · rfl

/-- `inheritPlunderer` keeps the alive count. -/
theorem countAlive_inheritPlunderer (g : Game) (deadRole : GameRole) :
    countAlive (inheritPlunderer g deadRole) = countAlive g := by
  rw [inheritPlunderer]
  split
  · split
    · exact countAlive_setPlayerRole g _ deadRole
    · rfl
  · rfl

/-- `griefKill1` respects a recursive-call bound on the alive count. -/
theorem countAlive_griefKill1_le (r : Game → String → String → Game)
    (g : Game) (lt : Option String)
    (hr : ∀ g2 p c, countAlive (r g2 p c) ≤ countAlive g2) :
    countAlive (griefKill1 r g lt) ≤ countAlive g := by
  cases lt with
  | none => exact Nat.le_refl _
  | some loverId =>
    simp only [griefKill1]
    split
    · split
      · exact hr g loverId "grief"
      · exact Nat.le_refl _
    · exact Nat.le_refl _

/-- `griefKill2` respects a recursive-call bound on the alive count. -/
theorem countAlive_griefKill2_le (r : Game → String → String → Game)
    (g : Game) (deadId : String)
    (hr : ∀ g2 p c, countAlive (r g2 p c) ≤ countAlive g2) :
    countAlive (griefKill2 r g deadId) ≤ countAlive g := by
  rw [griefKill2]
  split
  · exact hr g _ "grief"
  · exact Nat.le_refl _

/-- The death cascade never increases the alive count. -/
theorem countAlive_killPlayer_le (fuel : Nat) :
    ∀ (g : Game) (pid c : String),
      countAlive (killPlayer fuel g pid c) ≤ countAlive g := by
  induction fuel with
  | zero => intro g pid c; exact Nat.le_refl _
  | succ n ih =>
    intro g pid c
    show countAlive (killAux (killPlayer n) g pid c) ≤ countAlive g
    rw [killAux]
    cases hfind : g.players.find? (fun p => p.id = pid) with
    | none => exact Nat.le_refl _
    | some player =>
      by_cases ha : player.state = PlayerState.ALIVE
      · simp only [ha, ne_eq, not_true_eq_false, if_neg, not_false_eq_true]
        rw [countAlive_inheritPlunderer, countAlive_inheritHeir]
        calc countAlive (griefKill2 (killPlayer n)
              (griefKill1 (killPlayer n) (markDead g pid c) player.linkedTo)
              pid)
            ≤ countAlive (griefKill1 (killPlayer n) (markDead g pid c)
                player.linkedTo) :=
              countAlive_griefKill2_le _ _ _ (fun g2 p2 c2 => ih g2 p2 c2)
          _ ≤ countAlive (markDead g pid c) :=
              countAlive_griefKill1_le _ _ _ (fun g2 p2 c2 => ih g2 p2 c2)
          _ ≤ countAlive g := countAlive_markDead_le g pid c
      · simp [ha]

/-- With no alive player in the room, `killPlayer` is the identity for
every fuel. -/
theorem killPlayer_of_no_alive (g : Game) (pid c : String)
    (h : countAlive g = 0) : ∀ fuel, killPlayer fuel g pid c = g := by
  intro fuel
  cases fuel with
  | zero => rfl
  | succ n =>
    show killAux (killPlayer n) g pid c = g
    rw [killAux]
    cases hfind : g.players.find? (fun p => p.id = pid) with
    | none => rfl
    | some player =>
      have hmem := List.mem_of_find?_eq_some hfind
      have hdead : player.state ≠ PlayerState.ALIVE := by
        intro ha
        have : player ∈ g.players.filter (fun p =>
            p.state = PlayerState.ALIVE) := List.mem_filter.mpr ⟨hmem, by simp [ha]⟩
        rw [countAlive] at h
        rw [List.length_eq_zero.mp h] at this
        cases this
      simp [hdead]

/-- `griefKill1` only calls `recur` on its own input state. -/
theorem griefKill1_congr (r1 r2 : Game → String → String → Game) (g : Game)
    (lt : Option String) (h : ∀ p c, r1 g p c = r2 g p c) :
    griefKill1 r1 g lt = griefKill1 r2 g lt := by
  cases lt with
  | none => rfl
  | some loverId =>
    simp only [griefKill1]
    split
    · split
      · exact h loverId "grief"
      · rfl
    · rfl

/-- `griefKill2` only calls `recur` on its own input state. -/
theorem griefKill2_congr (r1 r2 : Game → String → String → Game) (g : Game)
    (deadId : String) (h : ∀ p c, r1 g p c = r2 g p c) :
    griefKill2 r1 g deadId = griefKill2 r2 g deadId := by
  rw [griefKill2, griefKill2]
  split
  · exact h _ "grief"
  · rfl

/-- Fuel stability: any two fuels at least the alive count compute the
same cascade result. -/
theorem killPlayer_fuel_stable (n : Nat) :
    ∀ (g : Game) (pid c : String) (f1 f2 : Nat), countAlive g ≤ n →
      countAlive g ≤ f1 → countAlive g ≤ f2 →
      killPlayer f1 g pid c = killPlayer f2 g pid c := by
  induction n with
  | zero =>
    intro g pid c f1 f2 h0 _ _
    have hz : countAlive g = 0 := Nat.le_zero.mp h0
    rw [killPlayer_of_no_alive g pid c hz f1, killPlayer_of_no_alive g pid c hz f2]
  | succ n ih =>
    intro g pid c f1 f2 hn h1 h2
    by_cases hz : countAlive g = 0
    · rw [killPlayer_of_no_alive g pid c hz f1, killPlayer_of_no_alive g pid c hz f2]
    · have hpos : 1 ≤ countAlive g := Nat.one_le_iff_ne_zero.mpr hz
      cases f1 with
      | zero => exact absurd (Nat.le_trans hpos h1) (by simp)
      | succ a =>
        cases f2 with
        | zero => exact absurd (Nat.le_trans hpos h2) (by simp)
        | succ b =>
          show killAux (killPlayer a) g pid c = killAux (killPlayer b) g pid c
          rw [killAux, killAux]
          cases hfind : g.players.find? (fun p => p.id = pid) with
          | none => rfl
          | some player =>
            by_cases ha : player.state = PlayerState.ALIVE
            · simp only [ha, ne_eq, not_true_eq_false, if_neg, not_false_eq_true]
              have hlt : countAlive (markDead g pid c) < countAlive g :=
                countAlive_markDead_lt g pid c player hfind ha
              have hmn : countAlive (markDead g pid c) ≤ n :=
                Nat.lt_succ_iff.mp (Nat.lt_of_lt_of_le hlt hn)
              have hma : countAlive (markDead g pid c) ≤ a :=
                Nat.lt_succ_iff.mp (Nat.lt_of_lt_of_le hlt h1)
              have hmb : countAlive (markDead g pid c) ≤ b :=
                Nat.lt_succ_iff.mp (Nat.lt_of_lt_of_le hlt h2)
              have hrec1 : ∀ p2 c2, killPlayer a (markDead g pid c) p2 c2 =
                  killPlayer b (markDead g pid c) p2 c2 :=
                fun p2 c2 => ih (markDead g pid c) p2 c2 a b hmn hma hmb
              have hg1 : griefKill1 (killPlayer a) (markDead g pid c)
                  player.linkedTo =
                  griefKill1 (killPlayer b) (markDead g pid c) player.linkedTo :=
                griefKill1_congr _ _ _ _ hrec1
              have hg2le : countAlive (griefKill1 (killPlayer a)
                  (markDead g pid c) player.linkedTo) ≤
                  countAlive (markDead g pid c) :=
                countAlive_griefKill1_le _ _ _
                  (fun g2 p2 c2 => countAlive_killPlayer_le a g2 p2 c2)
              have hrec2 : ∀ p2 c2,
                  killPlayer a (griefKill1 (killPlayer a) (markDead g pid c)
                    player.linkedTo) p2 c2 =
                  killPlayer b (griefKill1 (killPlayer a) (markDead g pid c)
                    player.linkedTo) p2 c2 :=
                fun p2 c2 => ih _ p2 c2 a b (Nat.le_trans hg2le hmn)
                  (Nat.le_trans hg2le hma) (Nat.le_trans hg2le hmb)
              have hg2 : griefKill2 (killPlayer a)
                  (griefKill1 (killPlayer a) (markDead g pid c)
                    player.linkedTo) pid =
                  griefKill2 (killPlayer b)
                  (griefKill1 (killPlayer a) (markDead g pid c)
                    player.linkedTo) pid :=
                griefKill2_congr _ _ _ _ hrec2
              rw [hg2, hg1]
            · simp [ha]

/-- C7: `killPlayer` on a missing or non-ALIVE player is a no-op for any
fuel, and the cascade's recursion depth is bounded by the room's player
count: every fuel ≥ the player count computes the same result. -/
theorem killPlayer_noop_and_fuel_bound (game : Game) (playerId cause : String) :
    (∀ fuel, (∀ p, game.players.find? (fun q => q.id = playerId) = some p →
        p.state ≠ PlayerState.ALIVE) →
      killPlayer fuel game playerId cause = game) ∧
    (∀ f1 f2, game.players.length ≤ f1 → game.players.length ≤ f2 →
      killPlayer f1 game playerId cause = killPlayer f2 game playerId cause) := by
  constructor
  · intro fuel h
    cases fuel with
    | zero => rfl
    | succ n =>
      show killAux (killPlayer n) game playerId cause = game
      rw [killAux]
      cases hfind : game.players.find? (fun p => p.id = playerId) with
      | none => rfl
      | some player => simp [h player hfind]
  · intro f1 f2 h1 h2
    have hca : countAlive game ≤ game.players.length :=
      List.length_filter_le _ _
    exact killPlayer_fuel_stable (countAlive game) game playerId cause f1 f2
      (Nat.le_refl _) (Nat.le_trans hca h1) (Nat.le_trans hca h2)

/-- C7 witness: killing the already-dead "p4" changes nothing, and for the
lover-pair cascade in `gameC7` any fuel ≥ the 4 players is equivalent. -/
theorem killPlayer_noop_and_fuel_bound_witness :
    killPlayer 2 gameC7 "p4" "witch_poison" = gameC7 ∧
    killPlayer 9 gameC7 "p1" "werewolf_attack" =
      killPlayer 4 gameC7 "p1" "werewolf_attack" :=
  ⟨(killPlayer_noop_and_fuel_bound gameC7 "p4" "witch_poison").1 2
    (fun p hp => by
      have h0 : gameC7.players.find? (fun q => q.id = "p4") =
          some ⟨"p4", "u4", 4, GameRole.VILLAGER, PlayerState.DEAD, none⟩ := by
        decide
      rw [h0] at hp
      injection hp with hp2
      rw [← hp2]
      decide),
   (killPlayer_noop_and_fuel_bound gameC7 "p1" "werewolf_attack").2 9 4
     (by decide) (by decide)⟩

/-- `markDead` does not touch the room row's dayNumber or phase. -/
theorem dayPhase_markDead (g : Game) (pid c : String) :
    (markDead g pid c).dayNumber = g.dayNumber ∧
    (markDead g pid c).phase = g.phase := ⟨rfl, rfl⟩

/-- `griefKill1` preserves dayNumber/phase when the recursive call does. -/
theorem dayPhase_griefKill1 (r : Game → String → String → Game) (g : Game)
    (lt : Option String)
    (hr : ∀ g2 p c, (r g2 p c).dayNumber = g2.dayNumber ∧
      (r g2 p c).phase = g2.phase) :
    (griefKill1 r g lt).dayNumber = g.dayNumber ∧
    (griefKill1 r g lt).phase = g.phase := by
  cases lt with
  | none => exact ⟨rfl, rfl⟩
  | some loverId =>
    simp only [griefKill1]
    split
    · split
      · exact hr g loverId "grief"
      · exact ⟨rfl, rfl⟩
    · exact ⟨rfl, rfl⟩

/-- `griefKill2` preserves dayNumber/phase when the recursive call does. -/
theorem dayPhase_griefKill2 (r : Game → String → String → Game) (g : Game)
    (deadId : String)
    (hr : ∀ g2 p c, (r g2 p c).dayNumber = g2.dayNumber ∧
      (r g2 p c).phase = g2.phase) :
    (griefKill2 r g deadId).dayNumber = g.dayNumber ∧
    (griefKill2 r g deadId).phase = g.phase := by
  rw [griefKill2]
  split
  · exact hr g _ "grief"
  · exact ⟨rfl, rfl⟩

/-- `inheritHeir` does not touch dayNumber or phase. -/
theorem dayPhase_inheritHeir (g : Game) (deadId : String) (deadRole : GameRole) :
    (inheritHeir g deadId deadRole).dayNumber = g.dayNumber ∧
    (inheritHeir g deadId deadRole).phase = g.phase := by
  rw [inheritHeir]
  split
  · split
    · split
      · exact ⟨rfl, rfl⟩
      · exact ⟨rfl, rfl⟩
    · exact ⟨rfl, rfl⟩
  · exact ⟨rfl, rfl⟩

/-- `inheritPlunderer` does not touch dayNumber or phase. -/
theorem dayPhase_inheritPlunderer (g : Game) (deadRole : GameRole) :
    (inheritPlunderer g deadRole).dayNumber = g.dayNumber ∧
    (inheritPlunderer g deadRole).phase = g.phase := by
  rw [inheritPlunderer]
  split
  · split
    · exact ⟨rfl, rfl⟩
    · exact ⟨rfl, rfl⟩
  · exact ⟨rfl, rfl⟩

/-- The death cascade never touches the room row's dayNumber or phase. -/
theorem dayPhase_killPlayer (fuel : Nat) :
    ∀ (g : Game) (pid c : String),
      (killPlayer fuel g pid c).dayNumber = g.dayNumber ∧
      (killPlayer fuel g pid c).phase = g.phase := by
  induction fuel with
  | zero => intro g pid c; exact ⟨rfl, rfl⟩
  | succ n ih =>
    intro g pid c
    show (killAux (killPlayer n) g pid c).dayNumber = g.dayNumber ∧
      (killAux (killPlayer n) g pid c).phase = g.phase
    rw [killAux]
    cases hfind : g.players.find? (fun p => p.id = pid) with
    | none => exact ⟨rfl, rfl⟩
    | some player =>
      by_cases ha : player.state = PlayerState.ALIVE
      · simp only [ha, ne_eq, not_true_eq_false, if_neg, not_false_eq_true]
        constructor
        · rw [(dayPhase_inheritPlunderer _ _).1, (dayPhase_inheritHeir _ _ _).1,
            (dayPhase_griefKill2 _ _ _ ih).1, (dayPhase_griefKill1 _ _ _ ih).1]
          exact (dayPhase_markDead g pid c).1
        · rw [(dayPhase_inheritPlunderer _ _).2, (dayPhase_inheritHeir _ _ _).2,
            (dayPhase_griefKill2 _ _ _ ih).2, (dayPhase_griefKill1 _ _ _ ih).2]
          exact (dayPhase_markDead g pid c).2
      · simp [ha]

/-- One resolver action never touches the room row's dayNumber or phase. -/
theorem dayPhase_processAction (g : Game) (ctx : ResolveCtx) (a : GameAction) :
    (processAction g ctx a).1.dayNumber = g.dayNumber ∧
    (processAction g ctx a).1.phase = g.phase := by
  refine ⟨?_, ?_⟩ <;>
    · simp only [processAction]
      cases a.actionType <;> (repeat' split) <;> rfl

/-- The night resolver never touches the room row's dayNumber or phase. -/
theorem dayPhase_processNightActions (g : Game) :
    (processNightActions g).dayNumber = g.dayNumber ∧
    (processNightActions g).phase = g.phase := by
  have hfold : ∀ (acts : List GameAction) (gc : Game × ResolveCtx),
      ((acts.foldl (fun gc a => processAction gc.1 gc.2 a) gc).1).dayNumber =
        gc.1.dayNumber ∧
      ((acts.foldl (fun gc a => processAction gc.1 gc.2 a) gc).1).phase =
        gc.1.phase := by
    intro acts
    induction acts with
    | nil => intro gc; exact ⟨rfl, rfl⟩
    | cons a acts ih =>
      intro gc
      rw [List.foldl_cons]
      refine ⟨?_, ?_⟩
      · rw [(ih _).1, (dayPhase_processAction gc.1 gc.2 a).1]
      · rw [(ih _).2, (dayPhase_processAction gc.1 gc.2 a).2]
  have hdeaths : ∀ (ds : List (String × String)) (prot : List String)
      (g0 : Game),
      ((ds.foldl (fun g kv =>
        if ¬ prot.contains kv.1 ∧ ¬ isPlayerProtected g kv.1 kv.2 then
          killPlayer g.players.length g kv.1 kv.2
        else g) g0)).dayNumber = g0.dayNumber ∧
      ((ds.foldl (fun g kv =>
        if ¬ prot.contains kv.1 ∧ ¬ isPlayerProtected g kv.1 kv.2 then
          killPlayer g.players.length g kv.1 kv.2
        else g) g0)).phase = g0.phase := by
    intro ds prot
    induction ds with
    | nil => intro g0; exact ⟨rfl, rfl⟩
    | cons kv ds ih =>
      intro g0
      rw [List.foldl_cons]
      by_cases hc : ¬ prot.contains kv.1 ∧ ¬ isPlayerProtected g0 kv.1 kv.2
      · refine ⟨?_, ?_⟩
        · rw [(ih _).1, if_pos hc,
            (dayPhase_killPlayer g0.players.length g0 kv.1 kv.2).1]
        · rw [(ih _).2, if_pos hc,
            (dayPhase_killPlayer g0.players.length g0 kv.1 kv.2).2]
      · refine ⟨?_, ?_⟩
        · rw [(ih _).1, if_neg hc]
        · rw [(ih _).2, if_neg hc]
  rw [processNightActions]
  refine ⟨?_, ?_⟩
  · rw [(hdeaths _ _ _).1, (hfold _ _).1]
  · rw [(hdeaths _ _ _).2, (hfold _ _).2]

/-- The NIGHT_PHASE start hook never touches dayNumber or phase. -/
theorem dayPhase_startNightPhase (g : Game) (r : Bool) :
    (startNightPhase g r).dayNumber = g.dayNumber ∧
    (startNightPhase g r).phase = g.phase := by
  rw [startNightPhase]
  split
  · split
    · refine ⟨?_, ?_⟩
      · rw [(dayPhase_killPlayer _ _ _ _).1]
      · rw [(dayPhase_killPlayer _ _ _ _).2]
    · exact ⟨rfl, rfl⟩
  · exact ⟨rfl, rfl⟩

/-- The phase-start hooks never touch dayNumber or phase. -/
theorem dayPhase_executePhaseTransition (g : Game) (phase : GamePhase)
    (r : Bool) :
    (executePhaseTransition g phase r).dayNumber = g.dayNumber ∧
    (executePhaseTransition g phase r).phase = g.phase := by
  cases phase <;>
    first
      | exact ⟨rfl, rfl⟩
      | exact dayPhase_startNightPhase g r

/-- The phase-end hook never touches dayNumber or phase. -/
theorem dayPhase_processPhaseEnd (g : Game) (currentPhase : GamePhase) :
    (processPhaseEnd g currentPhase).dayNumber = g.dayNumber ∧
    (processPhaseEnd g currentPhase).phase = g.phase := by
  cases currentPhase <;>
    first
      | exact ⟨rfl, rfl⟩
      | exact dayPhase_processNightActions g

/-- `endGame` keeps the dayNumber and lands in GAME_END. -/
theorem endGame_fields (g : Game) (w : Team) :
    (endGame g w).dayNumber = g.dayNumber ∧
    (endGame g w).phase = GamePhase.GAME_END := ⟨rfl, rfl⟩

/-- C8: across any phase transition the dayNumber never decreases, it
increases by exactly 1 exactly when the transition lands in NIGHT_PHASE
(i.e., nextPhase is NIGHT_PHASE and no winner short-circuits the
transition to GAME_END), and every other transition leaves it unchanged. -/
theorem transitionToPhase_dayNumber (game : Game) (nextPhase : GamePhase)
    (now : Nat) (r : Bool) :
    game.dayNumber ≤ (transitionToPhase game nextPhase now r).dayNumber ∧
    ((transitionToPhase game nextPhase now r).phase = GamePhase.NIGHT_PHASE →
      (transitionToPhase game nextPhase now r).dayNumber =
        game.dayNumber + 1) ∧
    ((transitionToPhase game nextPhase now r).phase ≠ GamePhase.NIGHT_PHASE →
      (transitionToPhase game nextPhase now r).dayNumber = game.dayNumber) := by
  rw [transitionToPhase]
  have hd1 : (processPhaseEnd (clearPhaseTimer game)
      (clearPhaseTimer game).phase).dayNumber = game.dayNumber :=
    (dayPhase_processPhaseEnd (clearPhaseTimer game)
      (clearPhaseTimer game).phase).1
  generalize hG : processPhaseEnd (clearPhaseTimer game)
    (clearPhaseTimer game).phase = g1 at hd1 ⊢
  cases hwin : checkWinConditions g1 with
  | some winner =>
    simp only []
    refine ⟨?_, ?_, ?_⟩
    · rw [(endGame_fields _ _).1, hd1]
    · intro hph
      rw [(endGame_fields _ _).2] at hph
      cases hph
    · intro _
      rw [(endGame_fields _ _).1, hd1]
  | none =>
    simp only []
    have hcomb : ∀ gg : Game,
        ((if getPhaseDuration g1 nextPhase ≠ 0 ∧
            nextPhase ≠ GamePhase.GAME_END then
          schedulePhaseEnd (executePhaseTransition gg nextPhase r) nextPhase
            (getPhaseDuration g1 nextPhase) now
        else executePhaseTransition gg nextPhase r)).dayNumber =
          gg.dayNumber ∧
        ((if getPhaseDuration g1 nextPhase ≠ 0 ∧
            nextPhase ≠ GamePhase.GAME_END then
          schedulePhaseEnd (executePhaseTransition gg nextPhase r) nextPhase
            (getPhaseDuration g1 nextPhase) now
        else executePhaseTransition gg nextPhase r)).phase = gg.phase := by
      intro gg
      constructor
      · split
        · exact (dayPhase_executePhaseTransition gg nextPhase r).1
        · exact (dayPhase_executePhaseTransition gg nextPhase r).1
      · split
        · exact (dayPhase_executePhaseTransition gg nextPhase r).2
        · exact (dayPhase_executePhaseTransition gg nextPhase r).2
    refine ⟨?_, ?_, ?_⟩
    · rw [(hcomb _).1]
      show game.dayNumber ≤
        (if nextPhase = GamePhase.NIGHT_PHASE then g1.dayNumber + 1
         else g1.dayNumber)
      split <;> (rw [hd1]; try omega)
    · intro hph
      rw [(hcomb _).2] at hph
      have hnp : nextPhase = GamePhase.NIGHT_PHASE := hph
      rw [(hcomb _).1]
      show (if nextPhase = GamePhase.NIGHT_PHASE then g1.dayNumber + 1
        else g1.dayNumber) = game.dayNumber + 1
      rw [if_pos hnp, hd1]
    · intro hph
      rw [(hcomb _).2] at hph
      have hnp : ¬ nextPhase = GamePhase.NIGHT_PHASE := hph
      rw [(hcomb _).1]
      show (if nextPhase = GamePhase.NIGHT_PHASE then g1.dayNumber + 1
        else g1.dayNumber) = game.dayNumber
      rw [if_neg hnp, hd1]

/-- C8 witness: ending the vote of `gameC8` enters the night and bumps the
dayNumber from 1 to 2. -/
theorem transitionToPhase_dayNumber_witness :
    (transitionToPhase gameC8 GamePhase.NIGHT_PHASE 0 false).dayNumber =
      gameC8.dayNumber + 1 :=
  (transitionToPhase_dayNumber gameC8 GamePhase.NIGHT_PHASE 0 false).2.1
    (by decide)
